import Mathlib

/-!
Shallow embedding of the EDI processing core of `python-rpc-service`
(`src/edi_parser.py`, `src/edi_validator.py`, `src/edi_service.py`).

Raw text is modelled as `List Char`; segment ids and element values as
`String`.  Python's `float` values are modelled as `ℚ` (no float rounding is
relevant to any property below: only "parses / does not parse" and comparison
with zero matter).  The gRPC transport, logging and the caller-supplied
timestamp field are outside the embedding; protobuf sub-messages that the code
may leave unset are modelled as `Option`.
-/

namespace EDI

/-- Whitespace characters stripped by Python `str.strip()` (ASCII subset;
the inputs of interest contain no exotic Unicode whitespace). -/
def isPyWs (c : Char) : Bool :=
  c = ' ' || c = '\t' || c = '\n' || c = '\r' || c = '\x0b' || c = '\x0c'

/-- Python `str.strip()`: drop leading and trailing whitespace. -/
def pyStrip (s : List Char) : List Char :=
  ((s.dropWhile isPyWs).reverse.dropWhile isPyWs).reverse

/-- One tokenized segment (`segment_data` dict of `_split_into_segments`). -/
structure Segment where
  segment_id : String
  elements : List String
  line_number : Nat
  position : Nat
deriving DecidableEq

/-- Loop body of `_split_into_segments` (identical in `edi_parser.py` and
`edi_validator.py`): `i` is the 0-based index into the lines of the stripped
message, `acc` the segments produced so far. -/
def splitGo : List (List Char) → Nat → List Segment → List Segment
  | [], _, acc => acc
  | l :: rest, i, acc =>
    let line := pyStrip l
    if line = [] then splitGo rest (i + 1) acc
    else
      match line.splitOn '*' with
      | [] => splitGo rest (i + 1) acc
      | [_] => splitGo rest (i + 1) acc
      | sid :: els =>
        splitGo rest (i + 1)
          (acc ++ [{ segment_id := String.mk sid,
                     elements := els.map String.mk,
                     line_number := i + 1,
                     position := acc.length + 1 }])

/-- `_split_into_segments`: note the whole message is `strip()`ped before the
split on newlines, so `line_number` counts lines of the stripped text. -/
def split_into_segments (edi_message : List Char) : List Segment :=
  splitGo ((pyStrip edi_message).splitOn '\n') 0 []

/-- `edi_service_pb2.MessageLevel` (the three levels the code uses). -/
inductive MessageLevel
  | error
  | warning
  | info
deriving DecidableEq

/-- `edi_service_pb2.ProcessingMessage`. -/
structure ProcessingMessage where
  level : MessageLevel
  code : String
  message : String
  field : Option String := none
  line_number : Option Nat := none
deriving DecidableEq

/-- `ValidationResult` dataclass of `edi_validator.py`. -/
structure ValidationResult where
  is_valid : Bool
  messages : List ProcessingMessage
  has_errors : Bool
deriving DecidableEq

/-- `True` iff some message in the list has Error severity. -/
def hasErrorMsg (msgs : List ProcessingMessage) : Bool :=
  msgs.any fun m => m.level = MessageLevel.error

/-- `segment_patterns` table (required, optional segment ids). -/
def segment_patterns (message_type : String) : Option (List String × List String) :=
  if message_type = "850" then
    some (["ISA", "GS", "ST", "BEG", "SE", "GE", "IEA"],
          ["REF", "N1", "N3", "N4", "PO1", "CTT"])
  else if message_type = "810" then
    some (["ISA", "GS", "ST", "BIG", "SE", "GE", "IEA"],
          ["REF", "N1", "N3", "N4", "IT1", "TDS", "CTT"])
  else if message_type = "856" then
    some (["ISA", "GS", "ST", "BSN", "SE", "GE", "IEA"],
          ["REF", "N1", "N3", "N4", "HL", "PRF", "TD1", "TD5"])
  else if message_type = "997" then
    some (["ISA", "GS", "ST", "AK1", "SE", "GE", "IEA"],
          ["AK2", "AK5", "AK9"])
  else none

/-- The `required` column of `segment_patterns` (callers only use it after the
support check, where the lookup succeeds). -/
def requiredOf (message_type : String) : List String :=
  ((segment_patterns message_type).getD ([], [])).1

/-- `isa_element_lengths` table of `_validate_isa_segment`. -/
def isa_element_lengths : List Nat := [2, 10, 2, 10, 2, 15, 2, 15, 6, 4, 1, 5, 2, 1, 1, 1]

/-- The `ISA_ELEMENT_TOO_LONG` warning for 0-based element index `i`. -/
def isaLengthWarning (i : Nat) (expected : Nat) : ProcessingMessage :=
  { level := MessageLevel.warning,
    code := "ISA_ELEMENT_TOO_LONG",
    message := "ISA element " ++ toString (i + 1) ++ " exceeds maximum length of "
      ++ toString expected,
    field := some ("ISA." ++ toString (i + 1)) }

/-- Length-check loop of `_validate_isa_segment`: for each positional maximum,
if the element exists and is longer, emit a Warning. -/
def isaWarnGo : List Nat → Nat → List String → List ProcessingMessage
  | [], _, _ => []
  | expected :: rest, i, els =>
    (match els[i]? with
     | some el => if el.length > expected then [isaLengthWarning i expected] else []
     | none => []) ++ isaWarnGo rest (i + 1) els

/-- `_validate_isa_segment`. -/
def validate_isa_segment (isa_segment : Segment) : ValidationResult :=
  if isa_segment.segment_id ≠ "ISA" then
    { is_valid := false,
      messages := [{ level := MessageLevel.error,
                     code := "INVALID_ISA_SEGMENT",
                     message := "First segment must be ISA",
                     field := some "ISA" }],
      has_errors := true }
  else
    let elements := isa_segment.elements
    let insufficient := elements.length < 16
    let msgs :=
      (if insufficient then
        [{ level := MessageLevel.error,
           code := "INSUFFICIENT_ISA_ELEMENTS",
           message := "ISA segment must have at least 16 elements",
           field := some "ISA" : ProcessingMessage }]
       else []) ++ isaWarnGo isa_element_lengths 0 elements
    { is_valid := !insufficient, messages := msgs, has_errors := insufficient }

/-- Required-segment loop of `validate_format`: one `MISSING_REQUIRED_SEGMENT`
Error per required id absent from the observed ids. -/
def requiredMsgs : List String → List String → List ProcessingMessage
  | [], _ => []
  | r :: rest, ids =>
    (if r ∈ ids then []
     else [{ level := MessageLevel.error,
             code := "MISSING_REQUIRED_SEGMENT",
             message := "Required segment " ++ r ++ " is missing",
             field := some r : ProcessingMessage }]) ++ requiredMsgs rest ids

/-- Opening-sequence loop of `_validate_segment_structure`: position `i` is
checked only when an `i`-th segment exists. -/
def orderGo : List String → Nat → List String → List ProcessingMessage
  | [], _, _ => []
  | expected :: rest, i, ids =>
    (match ids[i]? with
     | some actual =>
       if actual ≠ expected then
         [{ level := MessageLevel.error,
            code := "INVALID_SEGMENT_ORDER",
            message := "Expected " ++ expected ++ " at position " ++ toString (i + 1)
              ++ ", found " ++ actual,
            field := some expected }]
       else []
     | none => []) ++ orderGo rest (i + 1) ids

/-- `_validate_segment_structure`.  The closing check mirrors the Python slice
`segment_ids[-3:]`, which on a list shorter than 3 returns the whole list. -/
def validate_segment_structure (segments : List Segment) : ValidationResult :=
  let segment_ids := segments.map (·.segment_id)
  let msgs :=
    orderGo ["ISA", "GS", "ST"] 0 segment_ids ++
    (if segment_ids.drop (segment_ids.length - 3) ≠ ["SE", "GE", "IEA"] then
      [{ level := MessageLevel.error,
         code := "INVALID_CLOSING_SEGMENTS",
         message := "Message must end with SE, GE, IEA segments",
         field := some "closing_segments" : ProcessingMessage }]
     else [])
  { is_valid := msgs = [], messages := msgs, has_errors := msgs ≠ [] }

/-- Per-segment loop of `_validate_segment_elements`. -/
def elementMsgsGo : List Segment → List ProcessingMessage
  | [] => []
  | seg :: rest =>
    (if seg.segment_id = "ST" ∧ seg.elements.length < 2 then
      [{ level := MessageLevel.error,
         code := "INSUFFICIENT_ST_ELEMENTS",
         message := "ST segment must have at least 2 elements",
         field := some "ST",
         line_number := some seg.line_number : ProcessingMessage }]
     else if seg.segment_id = "BEG" ∧ seg.elements.length < 3 then
      [{ level := MessageLevel.error,
         code := "INSUFFICIENT_BEG_ELEMENTS",
         message := "BEG segment must have at least 3 elements",
         field := some "BEG",
         line_number := some seg.line_number : ProcessingMessage }]
     else []) ++ elementMsgsGo rest

/-- `_validate_segment_elements`. -/
def validate_segment_elements (segments : List Segment) : ValidationResult :=
  let msgs := elementMsgsGo segments
  { is_valid := msgs = [], messages := msgs, has_errors := msgs ≠ [] }

/-- The `UNSUPPORTED_MESSAGE_TYPE` Error message. -/
def unsupportedMsg (message_type : String) : ProcessingMessage :=
  { level := MessageLevel.error,
    code := "UNSUPPORTED_MESSAGE_TYPE",
    message := "Message type " ++ message_type ++ " is not supported" }

/-- `validate_format`: support gate, empty gate, then ISA / required /
structure / element checks, all appending into one outcome. -/
def validate_format (edi_message : List Char) (message_type : String) : ValidationResult :=
  if (segment_patterns message_type).isNone then
    { is_valid := false, messages := [unsupportedMsg message_type], has_errors := true }
  else
    match split_into_segments edi_message with
    | [] =>
      { is_valid := false,
        messages := [{ level := MessageLevel.error,
                       code := "EMPTY_MESSAGE",
                       message := "EDI message is empty or contains no valid segments" }],
        has_errors := true }
    | s0 :: rest =>
      let segments := s0 :: rest
      let isa := validate_isa_segment s0
      let req := requiredMsgs (requiredOf message_type) (segments.map (·.segment_id))
      let struc := validate_segment_structure segments
      let elems := validate_segment_elements segments
      let msgs := isa.messages ++ req ++ struc.messages ++ elems.messages
      let has := isa.has_errors || req ≠ [] || struc.has_errors || elems.has_errors
      { is_valid := !has, messages := msgs, has_errors := has }

/-! ### Numeric fields

The extractors call Python's built-in `float(...)`.  Modelled from the spec:
the builtin is not repository code; the model accepts the usual decimal forms
(optional surrounding whitespace, optional sign, digits with optional
fractional part and optional exponent) and rejects everything else, returning
the value as a rational.  The special forms `inf` / `nan` / underscores are
omitted: no claim depends on the exact acceptance boundary, only on
"parses" vs "raises". -/

/-- Decimal value of a digit list. -/
def digitsVal (ds : List Char) : Nat :=
  ds.foldl (fun a c => 10 * a + (c.toNat - '0'.toNat)) 0

/-- Leading-sign step of the `float` model. -/
def pyFloatSign : List Char → ℚ × List Char
  | '+' :: r => (1, r)
  | '-' :: r => (-1, r)
  | r => (1, r)

/-- Model of Python `float(s)`: `none` means `float` raises `ValueError`. -/
def pyFloat (s : String) : Option ℚ :=
  let t0 := pyStrip s.data
  let (sgn, t1) := pyFloatSign t0
  let ip := t1.takeWhile Char.isDigit
  let t2 := t1.dropWhile Char.isDigit
  let (fp, t3) :=
    match t2 with
    | '.' :: r => (r.takeWhile Char.isDigit, r.dropWhile Char.isDigit)
    | r => ([], r)
  if ip = [] ∧ fp = [] then none
  else
    let mag : ℚ := (digitsVal (ip ++ fp) : ℚ) / (10 : ℚ) ^ fp.length
    match t3 with
    | [] => some (sgn * mag)
    | e :: r =>
      if e = 'e' ∨ e = 'E' then
        let (epos, r1) :=
          match r with
          | '+' :: r2 => (true, r2)
          | '-' :: r2 => (false, r2)
          | r2 => (true, r2)
        let ed := r1.takeWhile Char.isDigit
        let rest := r1.dropWhile Char.isDigit
        if ed = [] ∨ rest ≠ [] then none
        else
          some (sgn * mag *
            (if epos then (10 : ℚ) ^ digitsVal ed else 1 / (10 : ℚ) ^ digitsVal ed))
      else none

/-- `float(...)` as it behaves inside the extractors: a failed conversion is a
raised `ValueError`, which `parse_message` turns into a failed result. -/
def pyFloatE (s : String) : Except String ℚ :=
  match pyFloat s with
  | some q => Except.ok q
  | none => Except.error ("could not convert string to float: " ++ s)

/-! ### Typed records (`edi_service_pb2` messages used by the parser).
Protobuf scalar fields default to `""` / `0`; sub-messages that are only
materialised by `CopyFrom` are modelled as `Option`. -/

/-- `edi_service_pb2.Party`. -/
structure Party where
  entity_identifier_code : String := ""
  name : String := ""
deriving DecidableEq

/-- Quantity sub-message (`quantity_ordered` / `quantity_invoiced`). -/
structure Quantity where
  value : ℚ := 0
  unit_of_measure : String := ""
deriving DecidableEq

/-- Unit-price sub-message. -/
structure UnitPrice where
  value : ℚ := 0
deriving DecidableEq

/-- Product sub-message. -/
structure Product where
  product_id : String := ""
  description : String := ""
deriving DecidableEq

/-- `edi_service_pb2.PurchaseOrderLineItem`. -/
structure PurchaseOrderLineItem where
  line_number : String := ""
  quantity_ordered : Quantity := {}
  unit_price : UnitPrice := {}
  product : Product := {}
deriving DecidableEq

/-- `edi_service_pb2.PurchaseOrderData`. -/
structure PurchaseOrderData where
  po_number : String := ""
  po_date : String := ""
  buyer : Option Party := none
  seller : Option Party := none
  ship_to : Option Party := none
  bill_to : Option Party := none
  line_items : List PurchaseOrderLineItem := []
deriving DecidableEq

/-- `edi_service_pb2.InvoiceLineItem`. -/
structure InvoiceLineItem where
  line_number : String := ""
  quantity_invoiced : Quantity := {}
  unit_price : UnitPrice := {}
  product : Product := {}
deriving DecidableEq

/-- `edi_service_pb2.InvoiceData`. -/
structure InvoiceData where
  invoice_number : String := ""
  invoice_date : String := ""
  due_date : String := ""
  bill_to : Option Party := none
  remit_to : Option Party := none
  ship_from : Option Party := none
  ship_to : Option Party := none
  line_items : List InvoiceLineItem := []
deriving DecidableEq

/-- `edi_service_pb2.AdvanceShipNoticeData`. -/
structure AdvanceShipNoticeData where
  shipment_id : String := ""
  shipment_date : String := ""
  expected_delivery_date : String := ""
  ship_from : Option Party := none
  ship_to : Option Party := none
  bill_to : Option Party := none
  carrier : Option Party := none
deriving DecidableEq

/-- `edi_service_pb2.TransactionSetAcknowledgment`. -/
structure TransactionSetAcknowledgment where
  transaction_set_id : String := ""
  control_number : String := ""
  acknowledgment_code : String := ""
deriving DecidableEq

/-- `edi_service_pb2.FunctionalAcknowledgmentData`. -/
structure FunctionalAcknowledgmentData where
  original_transaction_set_id : String := ""
  original_control_number : String := ""
  acknowledgment_code : String := ""
  transaction_set_acks : List TransactionSetAcknowledgment := []
deriving DecidableEq

/-- The `PO1` branch of `_parse_purchase_order`: the sequence of
`if len(elements) >= k` guards; `float` is applied to the quantity
(element 1) and the unit price (element 3) only when the element is truthy
(non-empty), in that order. -/
def mkPO1LineItem (elements : List String) : Except String PurchaseOrderLineItem := do
  let li0 : PurchaseOrderLineItem := {}
  let li1 :=
    match elements[0]? with
    | some e => { li0 with line_number := e }
    | none => li0
  let li2 ←
    match elements[1]? with
    | some e =>
      if e = "" then
        pure { li1 with quantity_ordered := { li1.quantity_ordered with value := 0 } }
      else do
        let q ← pyFloatE e
        pure { li1 with quantity_ordered := { li1.quantity_ordered with value := q } }
    | none => pure li1
  let li3 :=
    match elements[2]? with
    | some e => { li2 with quantity_ordered := { li2.quantity_ordered with unit_of_measure := e } }
    | none => li2
  let li4 ←
    match elements[3]? with
    | some e =>
      if e = "" then pure { li3 with unit_price := { value := 0 } }
      else do
        let q ← pyFloatE e
        pure { li3 with unit_price := { value := q } }
    | none => pure li3
  let li5 :=
    match elements[4]? with
    | some e => { li4 with product := { li4.product with description := e } }
    | none => li4
  let li6 :=
    match elements[5]? with
    | some e => { li5 with product := { li5.product with product_id := e } }
    | none => li5
  pure li6

/-- The `N1` branch of `_parse_purchase_order`: requires at least two elements
and overwrites the slot selected by the entity code. -/
def n1UpdatePO (po : PurchaseOrderData) (elements : List String) : PurchaseOrderData :=
  match elements[0]?, elements[1]? with
  | some entity_code, some nm =>
    let party : Party := { entity_identifier_code := entity_code, name := nm }
    if entity_code = "BY" then { po with buyer := some party }
    else if entity_code = "SE" then { po with seller := some party }
    else if entity_code = "ST" then { po with ship_to := some party }
    else if entity_code = "BT" then { po with bill_to := some party }
    else po
  | _, _ => po

/-- One loop iteration of `_parse_purchase_order`. -/
def poStep (po : PurchaseOrderData) (seg : Segment) : Except String PurchaseOrderData :=
  let elements := seg.elements
  if seg.segment_id = "BEG" then
    let po :=
      match elements[1]? with
      | some e => { po with po_number := e }
      | none => po
    let po :=
      match elements[2]? with
      | some e => { po with po_date := e }
      | none => po
    Except.ok po
  else if seg.segment_id = "PO1" then do
    let li ← mkPO1LineItem elements
    Except.ok { po with line_items := po.line_items ++ [li] }
  else if seg.segment_id = "N1" then
    Except.ok (n1UpdatePO po elements)
  else
    Except.ok po

/-- `_parse_purchase_order` as a fold over the segments. -/
def poGo : List Segment → PurchaseOrderData → Except String PurchaseOrderData
  | [], po => Except.ok po
  | seg :: rest, po =>
    match poStep po seg with
    | Except.ok po' => poGo rest po'
    | Except.error e => Except.error e

/-- The `IT1` branch of `_parse_invoice` (same shape as `PO1`). -/
def mkIT1LineItem (elements : List String) : Except String InvoiceLineItem := do
  let li0 : InvoiceLineItem := {}
  let li1 :=
    match elements[0]? with
    | some e => { li0 with line_number := e }
    | none => li0
  let li2 ←
    match elements[1]? with
    | some e =>
      if e = "" then
        pure { li1 with quantity_invoiced := { li1.quantity_invoiced with value := 0 } }
      else do
        let q ← pyFloatE e
        pure { li1 with quantity_invoiced := { li1.quantity_invoiced with value := q } }
    | none => pure li1
  let li3 :=
    match elements[2]? with
    | some e => { li2 with quantity_invoiced := { li2.quantity_invoiced with unit_of_measure := e } }
    | none => li2
  let li4 ←
    match elements[3]? with
    | some e =>
      if e = "" then pure { li3 with unit_price := { value := 0 } }
      else do
        let q ← pyFloatE e
        pure { li3 with unit_price := { value := q } }
    | none => pure li3
  let li5 :=
    match elements[4]? with
    | some e => { li4 with product := { li4.product with description := e } }
    | none => li4
  let li6 :=
    match elements[5]? with
    | some e => { li5 with product := { li5.product with product_id := e } }
    | none => li5
  pure li6

/-- The `N1` branch of `_parse_invoice`. -/
def n1UpdateInvoice (inv : InvoiceData) (elements : List String) : InvoiceData :=
  match elements[0]?, elements[1]? with
  | some entity_code, some nm =>
    let party : Party := { entity_identifier_code := entity_code, name := nm }
    if entity_code = "BT" then { inv with bill_to := some party }
    else if entity_code = "RE" then { inv with remit_to := some party }
    else if entity_code = "SF" then { inv with ship_from := some party }
    else if entity_code = "ST" then { inv with ship_to := some party }
    else inv
  | _, _ => inv

/-- One loop iteration of `_parse_invoice`. -/
def invStep (inv : InvoiceData) (seg : Segment) : Except String InvoiceData :=
  let elements := seg.elements
  if seg.segment_id = "BIG" then
    let inv :=
      match elements[0]? with
      | some e => { inv with invoice_date := e }
      | none => inv
    let inv :=
      match elements[1]? with
      | some e => { inv with invoice_number := e }
      | none => inv
    let inv :=
      match elements[2]? with
      | some e => { inv with due_date := e }
      | none => inv
    Except.ok inv
  else if seg.segment_id = "IT1" then do
    let li ← mkIT1LineItem elements
    Except.ok { inv with line_items := inv.line_items ++ [li] }
  else if seg.segment_id = "N1" then
    Except.ok (n1UpdateInvoice inv elements)
  else
    Except.ok inv

/-- `_parse_invoice` as a fold over the segments. -/
def invGo : List Segment → InvoiceData → Except String InvoiceData
  | [], inv => Except.ok inv
  | seg :: rest, inv =>
    match invStep inv seg with
    | Except.ok inv' => invGo rest inv'
    | Except.error e => Except.error e

/-- One loop iteration of `_parse_advance_ship_notice` (no numeric fields, so
no failure is possible; the `HL` branch is a `pass`). -/
def asnStep (asn : AdvanceShipNoticeData) (seg : Segment) : AdvanceShipNoticeData :=
  let elements := seg.elements
  if seg.segment_id = "BSN" then
    let asn :=
      match elements[0]? with
      | some e => { asn with shipment_id := e }
      | none => asn
    let asn :=
      match elements[1]? with
      | some e => { asn with shipment_date := e }
      | none => asn
    match elements[2]? with
    | some e => { asn with expected_delivery_date := e }
    | none => asn
  else if seg.segment_id = "N1" then
    match elements[0]?, elements[1]? with
    | some entity_code, some nm =>
      let party : Party := { entity_identifier_code := entity_code, name := nm }
      if entity_code = "SF" then { asn with ship_from := some party }
      else if entity_code = "ST" then { asn with ship_to := some party }
      else if entity_code = "BT" then { asn with bill_to := some party }
      else if entity_code = "CA" then { asn with carrier := some party }
      else asn
    | _, _ => asn
  else asn

/-- `_parse_advance_ship_notice`. -/
def asnGo : List Segment → AdvanceShipNoticeData → AdvanceShipNoticeData
  | [], asn => asn
  | seg :: rest, asn => asnGo rest (asnStep asn seg)

/-- One loop iteration of `_parse_functional_acknowledgment`. -/
def faStep (fa : FunctionalAcknowledgmentData) (seg : Segment) : FunctionalAcknowledgmentData :=
  let elements := seg.elements
  if seg.segment_id = "AK1" then
    let fa :=
      match elements[0]? with
      | some e => { fa with original_transaction_set_id := e }
      | none => fa
    let fa :=
      match elements[1]? with
      | some e => { fa with original_control_number := e }
      | none => fa
    match elements[2]? with
    | some e => { fa with acknowledgment_code := e }
    | none => fa
  else if seg.segment_id = "AK2" then
    let a0 : TransactionSetAcknowledgment := {}
    let a1 :=
      match elements[0]? with
      | some e => { a0 with transaction_set_id := e }
      | none => a0
    let a2 :=
      match elements[1]? with
      | some e => { a1 with control_number := e }
      | none => a1
    let a3 :=
      match elements[2]? with
      | some e => { a2 with acknowledgment_code := e }
      | none => a2
    { fa with transaction_set_acks := fa.transaction_set_acks ++ [a3] }
  else if seg.segment_id = "AK5" then
    match elements[0]? with
    | some e => { fa with acknowledgment_code := e }
    | none => fa
  else fa

/-- `_parse_functional_acknowledgment`. -/
def faGo : List Segment → FunctionalAcknowledgmentData → FunctionalAcknowledgmentData
  | [], fa => fa
  | seg :: rest, fa => faGo rest (faStep fa seg)

/-- Sum of the four typed records (`parse_result.data`). -/
inductive ParsedData
  | po (d : PurchaseOrderData)
  | inv (d : InvoiceData)
  | asn (d : AdvanceShipNoticeData)
  | fa (d : FunctionalAcknowledgmentData)
deriving DecidableEq

/-- `ParseResult` dataclass of `edi_parser.py`. -/
structure ParseResult where
  success : Bool
  data : Option ParsedData := none
  segments : Option (List Segment) := none
  error_message : Option String := none
deriving DecidableEq

/-- `parse_message`: tokenize, dispatch on the message type, and convert a
raised `ValueError` into a failed result (`except` branch). -/
def parse_message (edi_message : List Char) (message_type : String) : ParseResult :=
  let segments := split_into_segments edi_message
  if message_type = "850" then
    match poGo segments {} with
    | Except.ok d => { success := true, data := some (ParsedData.po d), segments := some segments }
    | Except.error e => { success := false, error_message := some ("Parsing error: " ++ e) }
  else if message_type = "810" then
    match invGo segments {} with
    | Except.ok d => { success := true, data := some (ParsedData.inv d), segments := some segments }
    | Except.error e => { success := false, error_message := some ("Parsing error: " ++ e) }
  else if message_type = "856" then
    { success := true, data := some (ParsedData.asn (asnGo segments {})), segments := some segments }
  else if message_type = "997" then
    { success := true, data := some (ParsedData.fa (faGo segments {})), segments := some segments }
  else
    { success := false, error_message := some ("Unsupported message type: " ++ message_type) }

/-! ### Business-rule validation (`edi_validator.py`, second stage). -/

/-- Line-item loop of `_validate_purchase_order_rules` (`i` is the 0-based
`enumerate` index). -/
def poLineMsgs : List PurchaseOrderLineItem → Nat → List ProcessingMessage
  | [], _ => []
  | li :: rest, i =>
    (if li.line_number = "" then
      [{ level := MessageLevel.error,
         code := "MISSING_LINE_NUMBER",
         message := "Line item " ++ toString (i + 1) ++ " must have a line number",
         field := some ("line_items[" ++ toString i ++ "].line_number") : ProcessingMessage }]
     else []) ++
    (if li.quantity_ordered.value ≤ 0 then
      [{ level := MessageLevel.error,
         code := "INVALID_QUANTITY",
         message := "Line item " ++ toString (i + 1) ++ " quantity must be greater than 0",
         field := some ("line_items[" ++ toString i ++ "].quantity_ordered") : ProcessingMessage }]
     else []) ++ poLineMsgs rest (i + 1)

/-- `_validate_purchase_order_rules`. -/
def validate_purchase_order_rules (po_data : PurchaseOrderData) : ValidationResult :=
  let msgs :=
    (if po_data.po_number = "" then
      [{ level := MessageLevel.error,
         code := "MISSING_PO_NUMBER",
         message := "Purchase Order number is required",
         field := some "po_number" : ProcessingMessage }]
     else []) ++
    (if po_data.line_items = [] then
      [{ level := MessageLevel.error,
         code := "NO_LINE_ITEMS",
         message := "Purchase Order must have at least one line item",
         field := some "line_items" : ProcessingMessage }]
     else []) ++ poLineMsgs po_data.line_items 0
  { is_valid := msgs = [], messages := msgs, has_errors := msgs ≠ [] }

/-- `_validate_invoice_rules`. -/
def validate_invoice_rules (invoice_data : InvoiceData) : ValidationResult :=
  let msgs :=
    (if invoice_data.invoice_number = "" then
      [{ level := MessageLevel.error,
         code := "MISSING_INVOICE_NUMBER",
         message := "Invoice number is required",
         field := some "invoice_number" : ProcessingMessage }]
     else []) ++
    (if invoice_data.line_items = [] then
      [{ level := MessageLevel.error,
         code := "NO_LINE_ITEMS",
         message := "Invoice must have at least one line item",
         field := some "line_items" : ProcessingMessage }]
     else [])
  { is_valid := msgs = [], messages := msgs, has_errors := msgs ≠ [] }

/-- `_validate_asn_rules`. -/
def validate_asn_rules (asn_data : AdvanceShipNoticeData) : ValidationResult :=
  let msgs :=
    if asn_data.shipment_id = "" then
      [{ level := MessageLevel.error,
         code := "MISSING_SHIPMENT_ID",
         message := "Shipment ID is required",
         field := some "shipment_id" : ProcessingMessage }]
    else []
  { is_valid := msgs = [], messages := msgs, has_errors := msgs ≠ [] }

/-- `_validate_functional_ack_rules`. -/
def validate_functional_ack_rules (fa_data : FunctionalAcknowledgmentData) : ValidationResult :=
  let msgs :=
    if fa_data.original_transaction_set_id = "" then
      [{ level := MessageLevel.error,
         code := "MISSING_ORIGINAL_TRANSACTION_SET_ID",
         message := "Original transaction set ID is required",
         field := some "original_transaction_set_id" : ProcessingMessage }]
    else []
  { is_valid := msgs = [], messages := msgs, has_errors := msgs ≠ [] }

/-- `validate_business_rules`: dispatch on the message type.  The Python code
receives the parsed protobuf object; in the pipeline the object's variant
always matches the type, so a mismatched variant (unreachable from the
service) falls through like the unknown-type branch, with no messages. -/
def validate_business_rules (parsed_data : Option ParsedData) (message_type : String) :
    ValidationResult :=
  if message_type = "850" then
    match parsed_data with
    | some (ParsedData.po d) =>
      let r := validate_purchase_order_rules d
      { is_valid := !r.has_errors, messages := r.messages, has_errors := r.has_errors }
    | _ => { is_valid := true, messages := [], has_errors := false }
  else if message_type = "810" then
    match parsed_data with
    | some (ParsedData.inv d) =>
      let r := validate_invoice_rules d
      { is_valid := !r.has_errors, messages := r.messages, has_errors := r.has_errors }
    | _ => { is_valid := true, messages := [], has_errors := false }
  else if message_type = "856" then
    match parsed_data with
    | some (ParsedData.asn d) =>
      let r := validate_asn_rules d
      { is_valid := !r.has_errors, messages := r.messages, has_errors := r.has_errors }
    | _ => { is_valid := true, messages := [], has_errors := false }
  else if message_type = "997" then
    match parsed_data with
    | some (ParsedData.fa d) =>
      let r := validate_functional_ack_rules d
      { is_valid := !r.has_errors, messages := r.messages, has_errors := r.has_errors }
    | _ => { is_valid := true, messages := [], has_errors := false }
  else
    { is_valid := true, messages := [], has_errors := false }

/-! ### Version / type detection (regex scans over the raw text). -/

/-- Try to match `ST\*(\d{3})` at the head of a suffix: on success return the
three captured digit characters.  (Python `\d` also accepts non-ASCII decimal
digits; the ASCII reading suffices for every input considered here.) -/
def stMatchHead : List Char → Option (List Char)
  | 'S' :: 'T' :: '*' :: d1 :: d2 :: d3 :: _ =>
    if d1.isDigit ∧ d2.isDigit ∧ d3.isDigit then some [d1, d2, d3] else none
  | _ => none

/-- `re.search` for `ST\*(\d{3})`: leftmost match wins. -/
def stSearch : List Char → Option (List Char)
  | [] => none
  | c :: rest =>
    match stMatchHead (c :: rest) with
    | some d => some d
    | none => stSearch rest

/-- `detect_message_type`. -/
def detect_message_type (edi_message : List Char) : String :=
  match stSearch edi_message with
  | some d => String.mk d
  | none => "Unknown"

/-- Consume `[^*]*\*` once: everything up to and including the next `*`.
The character class also matches newlines, exactly as Python's does. -/
def starField (s : List Char) : Option (List Char) :=
  match s.dropWhile (fun c => c ≠ '*') with
  | '*' :: rest => some rest
  | _ => none

/-- Consume `n` star-terminated fields. -/
def starFields : Nat → List Char → Option (List Char)
  | 0, s => some s
  | n + 1, s =>
    match starField s with
    | some r => starFields n r
    | none => none

/-- Match one version pattern at the head of a suffix: literal `ISA*`, then
`nfields` star-terminated fields, then the literal marker.  The greedy
`[^*]*\*` groups are deterministic (no backtracking can succeed), so this is
exact for the two patterns in `edi_version_patterns`. -/
def versionMatchHead (nfields : Nat) (marker : List Char) (s : List Char) : Bool :=
  match s with
  | 'I' :: 'S' :: 'A' :: '*' :: rest =>
    match starFields nfields rest with
    | some r => marker.isPrefixOf r
    | none => false
  | _ => false

/-- `re.search` for a version pattern: true iff it matches at some position. -/
def versionSearch (nfields : Nat) (marker : List Char) : List Char → Bool
  | [] => false
  | c :: rest => versionMatchHead nfields marker (c :: rest) || versionSearch nfields marker rest

/-- `detect_edi_version`: the `004010` pattern (16 intermediate fields) is
tried first, then the `005010` pattern (17 intermediate fields) — the two
patterns in the source differ by one `[^*]*\*` group. -/
def detect_edi_version (edi_message : List Char) : String :=
  if versionSearch 16 ("004010".toList) edi_message then "004010"
  else if versionSearch 17 ("005010".toList) edi_message then "005010"
  else "Unknown"

/-! ### Service pipeline (`edi_service.py`).  The gRPC context, logging and
the `processed_at` timestamp (wall clock, supplied by the transport layer)
are outside the embedding. -/

/-- `ProcessingOptions` of the request. -/
structure ProcessingOptions where
  validate_format : Bool := false
  validate_business_rules : Bool := false
  include_parsing_details : Bool := false
  include_raw_segments : Bool := false
deriving DecidableEq

/-- `ProcessEdiMessageRequest`. -/
structure ProcessEdiMessageRequest where
  edi_message : List Char
  message_type : String
  customer_id : String := ""
  options : ProcessingOptions := {}
deriving DecidableEq

/-- `ProcessingStatus` values. -/
inductive ProcessingStatus
  | success
  | validation_error
  | parsing_error
  | business_rule_error
  | unsupported_message_type
  | internal_error
deriving DecidableEq

/-- `ProcessEdiMessageResponse` (one `Option` per parsed-data field, as in the
protobuf message; only the variant matching the type is ever set). -/
structure ProcessEdiMessageResponse where
  status : ProcessingStatus
  message_type : String
  messages : List ProcessingMessage := []
  purchase_order : Option PurchaseOrderData := none
  invoice : Option InvoiceData := none
  advance_ship_notice : Option AdvanceShipNoticeData := none
  functional_acknowledgment : Option FunctionalAcknowledgmentData := none
  parsed_segments : List Segment := []
deriving DecidableEq

/-- `_is_message_type_supported` over `supported_types`. -/
def is_message_type_supported (message_type : String) : Bool :=
  message_type ∈ (["850", "810", "856", "997"] : List String)

/-- `ProcessEdiMessage`: support gate, optional format validation (messages
are extended only when `is_valid` is false; an early return happens only when
`has_errors` is true), parsing, optional business-rule validation (same
extend-then-return shape), then the success response. -/
def ProcessEdiMessage (request : ProcessEdiMessageRequest) : ProcessEdiMessageResponse :=
  if !is_message_type_supported request.message_type then
    { status := ProcessingStatus.unsupported_message_type,
      message_type := request.message_type,
      messages := [unsupportedMsg request.message_type] }
  else
    let fmt? : Option ValidationResult :=
      if request.options.validate_format then
        some (validate_format request.edi_message request.message_type)
      else none
    let messages : List ProcessingMessage :=
      match fmt? with
      | some vr => if vr.is_valid then [] else vr.messages
      | none => []
    let haltFmt : Bool :=
      match fmt? with
      | some vr => !vr.is_valid && vr.has_errors
      | none => false
    if haltFmt then
      { status := ProcessingStatus.validation_error,
        message_type := request.message_type,
        messages := messages }
    else
      let parse_result := parse_message request.edi_message request.message_type
      if !parse_result.success then
        { status := ProcessingStatus.parsing_error,
          message_type := request.message_type,
          messages := [{ level := MessageLevel.error,
                         code := "PARSING_ERROR",
                         message := parse_result.error_message.getD "" }] }
      else
        let biz? : Option ValidationResult :=
          if request.options.validate_business_rules then
            some (validate_business_rules parse_result.data request.message_type)
          else none
        let messages :=
          match biz? with
          | some bv => if bv.is_valid then messages else messages ++ bv.messages
          | none => messages
        let haltBiz : Bool :=
          match biz? with
          | some bv => !bv.is_valid && bv.has_errors
          | none => false
        if haltBiz then
          { status := ProcessingStatus.business_rule_error,
            message_type := request.message_type,
            messages := messages }
        else
          { status := ProcessingStatus.success,
            message_type := request.message_type,
            messages := messages,
            purchase_order :=
              match request.message_type, parse_result.data with
              | "850", some (ParsedData.po d) => some d
              | _, _ => none,
            invoice :=
              match request.message_type, parse_result.data with
              | "810", some (ParsedData.inv d) => some d
              | _, _ => none,
            advance_ship_notice :=
              match request.message_type, parse_result.data with
              | "856", some (ParsedData.asn d) => some d
              | _, _ => none,
            functional_acknowledgment :=
              match request.message_type, parse_result.data with
              | "997", some (ParsedData.fa d) => some d
              | _, _ => none,
            parsed_segments :=
              if request.options.include_raw_segments then
                parse_result.segments.getD []
              else [] }

/-! ## Derived definitions used by the verification (witness inputs, and
specification-side functions the theorems compare the embedding against). -/

/-- A seven-segment 997 document that is structurally valid except for one
over-long ISA element, so format validation yields exactly one Warning and no
Error. -/
def warnOnlyRaw : List Char :=
  "ISA*000***************\nGS*a\nST*997*0001\nAK1*850*0001\nSE*a\nGE*a\nIEA*a".toList

/-- The request wrapping `warnOnlyRaw` with format validation enabled. -/
def warnOnlyRequest : ProcessEdiMessageRequest :=
  { edi_message := warnOnlyRaw, message_type := "997",
    options := { validate_format := true } }

/-- The single segment tokenized from `"GS*1"`. -/
def gsSeg : Segment :=
  { segment_id := "GS", elements := ["1"], line_number := 1, position := 1 }

/-- Shape of a produced segment relative to its source line. -/
def lineShape (s : Segment) (l : List Char) : Prop :=
  (pyStrip l).splitOn '*' = s.segment_id.data :: s.elements.map String.data

/-- The value a segment writes into `fa.acknowledgment_code`, if any:
an `AK1` writes its third element (when present), an `AK5` its first. -/
def ackSetVal (s : Segment) : Option String :=
  if s.segment_id = "AK1" then s.elements[2]?
  else if s.segment_id = "AK5" then s.elements[0]?
  else none

/-- The value written by the last ack-setting segment of the list, if any. -/
def lastAckVal : List Segment → Option String
  | [] => none
  | s :: rest =>
    match lastAckVal rest with
    | some v => some v
    | none => ackSetVal s

/-- The three-segment 997 body refuting C10 as stated: it contains an `AK1`
with a third element followed later by an `AK5` with a first element, yet the
extracted `acknowledgment_code` is `"E"` (from the trailing `AK1`), not the
`AK5`'s `"R"`. -/
def akOverwriteRaw : List Char := "AK1*850*0001*A\nAK5*R\nAK1*850*0002*E".toList

/-- The two-segment body used as the C10 witness. -/
def akWitnessSegs : List Segment :=
  [{ segment_id := "AK1", elements := ["850", "0001", "A"], line_number := 1, position := 1 },
   { segment_id := "AK5", elements := ["R"], line_number := 2, position := 2 }]

deriving instance DecidableEq for Except

/-- A party segment carrying the given entity-role code together with a name:
id `N1`, first element equal to the code, and at least two elements (the code
in element 1 and the name in element 2, as the spec defines party segments;
an `N1` with fewer than two elements is skipped by the parser). -/
def roleSeg (code : String) (s : Segment) : Bool :=
  s.segment_id == "N1" && s.elements[0]? == some code && decide (2 ≤ s.elements.length)

/-- The purchase-order slot selected by a recognized entity-role code. -/
def poSlot (code : String) (po : PurchaseOrderData) : Option Party :=
  if code = "BY" then po.buyer
  else if code = "SE" then po.seller
  else if code = "ST" then po.ship_to
  else if code = "BT" then po.bill_to
  else none

/-- The duplicate-buyer segment list used as the C7 witness. -/
def dupBuyerSegs : List Segment :=
  [{ segment_id := "N1", elements := ["BY", "Alice"], line_number := 1, position := 1 },
   { segment_id := "N1", elements := ["BY", "Bob"], line_number := 2, position := 2 }]

/-- `True` on `Except.ok`, `False` on `Except.error`. -/
def exceptIsOk : Except ε α → Bool
  | Except.ok _ => true
  | Except.error _ => false

/-- The bad-quantity request used as the C6 witness. -/
def badQtyRequest : ProcessEdiMessageRequest :=
  { edi_message := "PO1*1*abc".toList, message_type := "850" }

/-- Concatenate fields, each terminated by a `*`. -/
def starJoin : List (List Char) → List Char
  | [] => []
  | f :: rest => f ++ '*' :: starJoin rest

/-- A header line: the `ISA` tag and separator, `pre` star-terminated fields,
then the trailing field (the position at which the version patterns read
their marker). -/
def isaHeaderLine (pre : List (List Char)) (marker : List Char) : List Char :=
  'I' :: 'S' :: 'A' :: '*' :: (starJoin pre ++ marker)

/-- Whether a suffix starts with the literal `ISA*`. -/
def isaTagAt : List Char → Bool
  | 'I' :: 'S' :: 'A' :: '*' :: _ => true
  | _ => false

/-- The 17 ordinary header fields used by the C5 witness. -/
def c5Pre : List (List Char) := List.replicate 17 ['A']

/-! ## Helper lemmas about message severity. -/

theorem hasErrorMsg_append (a b : List ProcessingMessage) :
    hasErrorMsg (a ++ b) = (hasErrorMsg a || hasErrorMsg b) := by
  simp [hasErrorMsg]

theorem hasErrorMsg_all_error {l : List ProcessingMessage}
    (h : ∀ m ∈ l, m.level = MessageLevel.error) :
    hasErrorMsg l = decide (l ≠ []) := by
  cases l with
  | nil => rfl
  | cons a t =>
    have ha := h a (by simp)
    simp [hasErrorMsg, ha]

theorem hasErrorMsg_no_error {l : List ProcessingMessage}
    (h : ∀ m ∈ l, m.level ≠ MessageLevel.error) :
    hasErrorMsg l = false := by
  simp only [hasErrorMsg, List.any_eq_false, decide_eq_true_eq]
  exact h

theorem isaWarnGo_mem_warning : ∀ (L : List Nat) (i : Nat) (els : List String),
    ∀ m ∈ isaWarnGo L i els, m.level = MessageLevel.warning := by
  intro L
  induction L with
  | nil => intro i els m hm; simp [isaWarnGo] at hm
  | cons e rest ih =>
    intro i els m hm
    simp only [isaWarnGo, List.mem_append] at hm
    rcases hm with hm | hm
    · rcases h : els[i]? with _ | el <;> rw [h] at hm
      · simp at hm
      · by_cases hl : el.length > e
        · simp [hl] at hm
          simp [hm, isaLengthWarning]
        · simp [hl] at hm
    · exact ih (i + 1) els m hm

theorem requiredMsgs_mem_error : ∀ (rs ids : List String),
    ∀ m ∈ requiredMsgs rs ids, m.level = MessageLevel.error := by
  intro rs
  induction rs with
  | nil => intro ids m hm; simp [requiredMsgs] at hm
  | cons r rest ih =>
    intro ids m hm
    simp only [requiredMsgs, List.mem_append] at hm
    rcases hm with hm | hm
    · by_cases h : r ∈ ids
      · simp [h] at hm
      · simp [h] at hm
        simp [hm]
    · exact ih ids m hm

theorem orderGo_mem_error : ∀ (es : List String) (i : Nat) (ids : List String),
    ∀ m ∈ orderGo es i ids, m.level = MessageLevel.error := by
  intro es
  induction es with
  | nil => intro i ids m hm; simp [orderGo] at hm
  | cons e rest ih =>
    intro i ids m hm
    simp only [orderGo, List.mem_append] at hm
    rcases hm with hm | hm
    · rcases h : ids[i]? with _ | a <;> rw [h] at hm
      · simp at hm
      · by_cases ha : a ≠ e
        · simp [ha] at hm
          simp [hm]
        · simp [ha] at hm
    · exact ih (i + 1) ids m hm

theorem structureMsgs_mem_error (segments : List Segment) :
    ∀ m ∈ (validate_segment_structure segments).messages, m.level = MessageLevel.error := by
  intro m hm
  simp only [validate_segment_structure, List.mem_append] at hm
  rcases hm with hm | hm
  · exact orderGo_mem_error _ 0 _ m hm
  · split at hm
    · simp at hm
      simp [hm]
    · simp at hm

theorem elementMsgsGo_mem_error : ∀ (segs : List Segment),
    ∀ m ∈ elementMsgsGo segs, m.level = MessageLevel.error := by
  intro segs
  induction segs with
  | nil => intro m hm; simp [elementMsgsGo] at hm
  | cons s rest ih =>
    intro m hm
    simp only [elementMsgsGo, List.mem_append] at hm
    rcases hm with hm | hm
    · split at hm
      · simp at hm; simp [hm]
      · split at hm
        · simp at hm; simp [hm]
        · simp at hm
    · exact ih m hm

/-! ## The `ValidationResult` invariant (shared by several claims). -/

theorem validate_isa_segment_invariant (s : Segment) :
    (validate_isa_segment s).has_errors = hasErrorMsg (validate_isa_segment s).messages ∧
    (validate_isa_segment s).is_valid = !(validate_isa_segment s).has_errors := by
  unfold validate_isa_segment
  by_cases hid : s.segment_id ≠ "ISA"
  · simp [hid, hasErrorMsg]
  · simp only [hid, if_false, ite_false]
    have hwarn := hasErrorMsg_no_error (l := isaWarnGo isa_element_lengths 0 s.elements)
      (fun m hm => by rw [isaWarnGo_mem_warning _ _ _ m hm]; intro h; cases h)
    by_cases hlen : s.elements.length < 16
    · simp [hlen, hasErrorMsg_append, hwarn, hasErrorMsg]
    · simp [hlen, hasErrorMsg_append, hwarn]

theorem validate_segment_structure_invariant (segments : List Segment) :
    (validate_segment_structure segments).has_errors
      = hasErrorMsg (validate_segment_structure segments).messages ∧
    (validate_segment_structure segments).is_valid
      = !(validate_segment_structure segments).has_errors := by
  constructor
  · exact (hasErrorMsg_all_error (structureMsgs_mem_error segments)).symm
  · show decide _ = !decide _
    simp

theorem validate_segment_elements_invariant (segments : List Segment) :
    (validate_segment_elements segments).has_errors
      = hasErrorMsg (validate_segment_elements segments).messages ∧
    (validate_segment_elements segments).is_valid
      = !(validate_segment_elements segments).has_errors := by
  constructor
  · exact (hasErrorMsg_all_error (elementMsgsGo_mem_error segments)).symm
  · show decide _ = !decide _
    simp

theorem validate_format_invariant (edi_message : List Char) (message_type : String) :
    (validate_format edi_message message_type).has_errors
      = hasErrorMsg (validate_format edi_message message_type).messages ∧
    (validate_format edi_message message_type).is_valid
      = !(validate_format edi_message message_type).has_errors := by
  unfold validate_format
  by_cases hsupp : (segment_patterns message_type).isNone
  · simp [hsupp, hasErrorMsg, unsupportedMsg]
  · simp only [hsupp, Bool.false_eq_true, if_false, ite_false]
    rcases hsegs : split_into_segments edi_message with _ | ⟨s0, rest⟩
    · simp [hasErrorMsg]
    · simp only []
      have hisa := validate_isa_segment_invariant s0
      have hreq := hasErrorMsg_all_error
        (requiredMsgs_mem_error (requiredOf message_type) ((s0 :: rest).map (·.segment_id)))
      have hstruc := validate_segment_structure_invariant (s0 :: rest)
      have helems := validate_segment_elements_invariant (s0 :: rest)
      constructor
      · simp only [hasErrorMsg_append, ← hisa.1, ← hreq, ← hstruc.1, ← helems.1]
      · simp

theorem poLineMsgs_mem_error : ∀ (items : List PurchaseOrderLineItem) (i : Nat),
    ∀ m ∈ poLineMsgs items i, m.level = MessageLevel.error := by
  intro items
  induction items with
  | nil => intro i m hm; simp [poLineMsgs] at hm
  | cons li rest ih =>
    intro i m hm
    simp only [poLineMsgs, List.mem_append] at hm
    rcases hm with (hm | hm) | hm
    · split at hm
      · simp at hm; simp [hm]
      · simp at hm
    · split at hm
      · simp at hm; simp [hm]
      · simp at hm
    · exact ih (i + 1) m hm

theorem po_rules_mem_error (d : PurchaseOrderData) :
    ∀ m ∈ (validate_purchase_order_rules d).messages, m.level = MessageLevel.error := by
  intro m hm
  simp only [validate_purchase_order_rules, List.mem_append] at hm
  rcases hm with (hm | hm) | hm
  · split at hm
    · simp at hm; simp [hm]
    · simp at hm
  · split at hm
    · simp at hm; simp [hm]
    · simp at hm
  · exact poLineMsgs_mem_error _ 0 m hm

theorem invoice_rules_mem_error (d : InvoiceData) :
    ∀ m ∈ (validate_invoice_rules d).messages, m.level = MessageLevel.error := by
  intro m hm
  simp only [validate_invoice_rules, List.mem_append] at hm
  rcases hm with hm | hm <;> split at hm <;> simp at hm <;> simp [hm]

theorem asn_rules_mem_error (d : AdvanceShipNoticeData) :
    ∀ m ∈ (validate_asn_rules d).messages, m.level = MessageLevel.error := by
  intro m hm
  simp only [validate_asn_rules] at hm
  split at hm <;> simp at hm
  simp [hm]

theorem fa_rules_mem_error (d : FunctionalAcknowledgmentData) :
    ∀ m ∈ (validate_functional_ack_rules d).messages, m.level = MessageLevel.error := by
  intro m hm
  simp only [validate_functional_ack_rules] at hm
  split at hm <;> simp at hm
  simp [hm]

theorem validate_business_rules_invariant (parsed_data : Option ParsedData)
    (message_type : String) :
    (validate_business_rules parsed_data message_type).has_errors
      = hasErrorMsg (validate_business_rules parsed_data message_type).messages ∧
    (validate_business_rules parsed_data message_type).is_valid
      = !(validate_business_rules parsed_data message_type).has_errors := by
  unfold validate_business_rules
  split_ifs with h850 h810 h856 h997
  · split
    · exact ⟨(hasErrorMsg_all_error (po_rules_mem_error _)).symm, rfl⟩
    · exact ⟨by simp [hasErrorMsg], rfl⟩
  · split
    · exact ⟨(hasErrorMsg_all_error (invoice_rules_mem_error _)).symm, rfl⟩
    · exact ⟨by simp [hasErrorMsg], rfl⟩
  · split
    · exact ⟨(hasErrorMsg_all_error (asn_rules_mem_error _)).symm, rfl⟩
    · exact ⟨by simp [hasErrorMsg], rfl⟩
  · split
    · exact ⟨(hasErrorMsg_all_error (fa_rules_mem_error _)).symm, rfl⟩
    · exact ⟨by simp [hasErrorMsg], rfl⟩
  · exact ⟨by simp [hasErrorMsg], rfl⟩

/-- C9: every outcome returned by the structural validator (`validate_format`)
and the business-rule validator (`validate_business_rules`) satisfies:
`has_errors` is true iff at least one message in the outcome has Error
severity, and `is_valid` equals the negation of `has_errors` — so
Warning/Info messages alone never set `has_errors`. -/
theorem outcome_invariant_holds (edi_message : List Char) (message_type : String)
    (parsed_data : Option ParsedData) :
    ((validate_format edi_message message_type).has_errors = true
        ↔ ∃ m ∈ (validate_format edi_message message_type).messages,
            m.level = MessageLevel.error)
    ∧ (validate_format edi_message message_type).is_valid
        = !(validate_format edi_message message_type).has_errors
    ∧ ((validate_business_rules parsed_data message_type).has_errors = true
        ↔ ∃ m ∈ (validate_business_rules parsed_data message_type).messages,
            m.level = MessageLevel.error)
    ∧ (validate_business_rules parsed_data message_type).is_valid
        = !(validate_business_rules parsed_data message_type).has_errors := by
  have hf := validate_format_invariant edi_message message_type
  have hb := validate_business_rules_invariant parsed_data message_type
  refine ⟨?_, hf.2, ?_, hb.2⟩
  · rw [hf.1]
    simp [hasErrorMsg]
  · rw [hb.1]
    simp [hasErrorMsg]

/-- C1 (evaluation of the code at the failing input): on a two-segment input
the closing-sequence check of `validate_format` is not skipped.  The Python
slice `segment_ids[-3:]` is total (no index fault occurs: on a short list it
yields the whole list), but the comparison against `["SE","GE","IEA"]` then
fails and `INVALID_CLOSING_SEGMENTS` is appended — contradicting the spec's
guard requirement that inputs with fewer than 3 segments skip this check. -/
theorem closing_check_short_input_eval :
    (split_into_segments ("ISA*a\nGS*b".toList)).length = 2
    ∧ ((validate_format ("ISA*a\nGS*b".toList) "850").messages.any
        (fun m => m.code == "INVALID_CLOSING_SEGMENTS")) = true := by
  constructor
  · rfl
  · rfl


/-- C2 counterexample: a request whose format validation produces a Warning
and no Error; the pipeline returns status SUCCESS but its message list is
empty — the Warning is not carried into the success response, because
`ProcessEdiMessage` extends `messages` only when `is_valid` is false. -/
theorem success_response_drops_warnings_cex :
    ((validate_format warnOnlyRaw "997").messages.any
        (fun m => decide (m.level = MessageLevel.warning))) = true
    ∧ (validate_format warnOnlyRaw "997").has_errors = false
    ∧ (ProcessEdiMessage warnOnlyRequest).status = ProcessingStatus.success
    ∧ (ProcessEdiMessage warnOnlyRequest).messages = [] := by
  refine ⟨rfl, rfl, rfl, rfl⟩

/-- C2 (amended): when format validation is enabled and produces no Error
(possibly Warnings), extraction succeeds, and business-rule validation (if
enabled) produces no Error, `ProcessEdiMessage` returns status SUCCESS with an
*empty* message list: Warning-only validation messages are discarded, since
messages are accumulated only when `is_valid` is false, which coincides with
`has_errors`. -/
theorem success_response_empty_messages (request : ProcessEdiMessageRequest)
    (hsupp : is_message_type_supported request.message_type = true)
    (hfmt : request.options.validate_format = true)
    (hnoerr : (validate_format request.edi_message request.message_type).has_errors = false)
    (hparse : (parse_message request.edi_message request.message_type).success = true)
    (hbiz : request.options.validate_business_rules = true →
      (validate_business_rules (parse_message request.edi_message request.message_type).data
        request.message_type).has_errors = false) :
    (ProcessEdiMessage request).status = ProcessingStatus.success
    ∧ (ProcessEdiMessage request).messages = [] := by
  have hvalid : (validate_format request.edi_message request.message_type).is_valid = true := by
    rw [(validate_format_invariant _ _).2, hnoerr]
    rfl
  unfold ProcessEdiMessage
  rw [hsupp]
  simp only [hfmt, if_true, hvalid, hnoerr, Bool.not_true, Bool.false_and, Bool.and_false,
    Bool.not_false, if_false, ite_true, ite_false, Bool.not_eq_true]
  rw [hparse]
  by_cases hb : request.options.validate_business_rules = true
  · have hbe := hbiz hb
    have hbv : (validate_business_rules
        (parse_message request.edi_message request.message_type).data
        request.message_type).is_valid = true := by
      rw [(validate_business_rules_invariant _ _).2, hbe]
      rfl
    simp [hb, hbv, hbe]
  · simp only [Bool.not_eq_true] at hb
    simp [hb]

/-- C2 witness: the amended theorem applied at the Warning-only 997 request. -/
theorem success_response_empty_messages_witness :
    (ProcessEdiMessage warnOnlyRequest).status = ProcessingStatus.success
    ∧ (ProcessEdiMessage warnOnlyRequest).messages = [] :=
  success_response_empty_messages warnOnlyRequest (by decide) rfl rfl rfl
    (fun h => nomatch h)

/-- C3 counterexample: on input `"GS*1"` (first segment id `GS`, not `ISA`)
`validate_format` appends `INVALID_ISA_SEGMENT` *and* the later structural
checks still contribute messages (`MISSING_REQUIRED_SEGMENT`,
`INVALID_SEGMENT_ORDER`, `INVALID_CLOSING_SEGMENTS`) — the error is not
terminal for the stage. -/
theorem invalid_isa_not_terminal_cex :
    ((validate_format ("GS*1".toList) "850").messages.any
        (fun m => m.code == "INVALID_ISA_SEGMENT")) = true
    ∧ ((validate_format ("GS*1".toList) "850").messages.any
        (fun m => m.code == "MISSING_REQUIRED_SEGMENT")) = true
    ∧ ((validate_format ("GS*1".toList) "850").messages.any
        (fun m => m.code == "INVALID_SEGMENT_ORDER")) = true
    ∧ ((validate_format ("GS*1".toList) "850").messages.any
        (fun m => m.code == "INVALID_CLOSING_SEGMENTS")) = true :=
  ⟨rfl, rfl, rfl, rfl⟩

/-- C3 (amended): a non-`ISA` first segment makes the *envelope-header
sub-check* terminal — `validate_isa_segment` returns exactly the single
`INVALID_ISA_SEGMENT` Error and no ISA element-count or element-length
message — but `validate_format` still runs the required-presence,
opening/closing-sequence and per-segment element-count checks, whose messages
all follow it in the outcome. -/
theorem invalid_isa_stage_behavior (edi_message : List Char) (message_type : String)
    (s0 : Segment) (rest : List Segment)
    (hsupp : (segment_patterns message_type).isNone = false)
    (hsegs : split_into_segments edi_message = s0 :: rest)
    (hid : s0.segment_id ≠ "ISA") :
    (validate_isa_segment s0).messages
      = [{ level := MessageLevel.error, code := "INVALID_ISA_SEGMENT",
           message := "First segment must be ISA", field := some "ISA" }]
    ∧ (validate_format edi_message message_type).messages
      = (validate_isa_segment s0).messages
        ++ requiredMsgs (requiredOf message_type) ((s0 :: rest).map (·.segment_id))
        ++ (validate_segment_structure (s0 :: rest)).messages
        ++ (validate_segment_elements (s0 :: rest)).messages := by
  have h1 : (validate_isa_segment s0).messages
      = [{ level := MessageLevel.error, code := "INVALID_ISA_SEGMENT",
           message := "First segment must be ISA", field := some "ISA" }] := by
    simp [validate_isa_segment, hid]
  refine ⟨h1, ?_⟩
  unfold validate_format
  rw [hsegs]
  simp [hsupp]


/-- C3 witness: the amended theorem applied at the counterexample input. -/
theorem invalid_isa_stage_behavior_witness :
    (validate_isa_segment gsSeg).messages
      = [{ level := MessageLevel.error, code := "INVALID_ISA_SEGMENT",
           message := "First segment must be ISA", field := some "ISA" }]
    ∧ (validate_format ("GS*1".toList) "850").messages
      = (validate_isa_segment gsSeg).messages
        ++ requiredMsgs (requiredOf "850") (([gsSeg] : List Segment).map (·.segment_id))
        ++ (validate_segment_structure [gsSeg]).messages
        ++ (validate_segment_elements [gsSeg]).messages :=
  invalid_isa_stage_behavior ("GS*1".toList) "850" gsSeg [] rfl rfl (by decide)

/-- C4 counterexample: `detect_message_type` matches the substring `ST*` plus
three digits anywhere in the text.  On `"TEST*850"` it returns `"850"` even
though no tokenized line has id `"ST"` (the only id is `"TEST"`); on
`"ST*8501"` it returns the 3-digit prefix `"850"` of the longer first element
`"8501"`, where the claim requires `"Unknown"` in both cases. -/
theorem detect_type_substring_cex :
    detect_message_type ("TEST*850".toList) = "850"
    ∧ ((split_into_segments ("TEST*850".toList)).all
        (fun s => s.segment_id != "ST")) = true
    ∧ detect_message_type ("ST*8501".toList) = "850"
    ∧ (split_into_segments ("ST*8501".toList)).map (·.elements) = [["8501"]] :=
  ⟨rfl, rfl, rfl, rfl⟩

theorem stSearch_first (s : List Char) : ∀ (i : Nat) (d : List Char),
    stMatchHead (s.drop i) = some d →
    (∀ j, j < i → stMatchHead (s.drop j) = none) →
    stSearch s = some d := by
  induction s with
  | nil =>
    intro i d h _
    rw [List.drop_nil] at h
    exact absurd h (by simp [stMatchHead])
  | cons c rest ih =>
    intro i d h hmin
    match i with
    | 0 =>
      rw [List.drop_zero] at h
      simp [stSearch, h]
    | i + 1 =>
      have h0 := hmin 0 (Nat.succ_pos i)
      rw [List.drop_zero] at h0
      have : stSearch (c :: rest) = stSearch rest := by
        simp [stSearch, h0]
      rw [this]
      exact ih i d (by simpa [List.drop_succ_cons] using h)
        (fun j hj => by
          have := hmin (j + 1) (Nat.succ_lt_succ hj)
          simpa [List.drop_succ_cons] using this)

theorem stSearch_none (s : List Char)
    (h : ∀ i, stMatchHead (s.drop i) = none) : stSearch s = none := by
  induction s with
  | nil => rfl
  | cons c rest ih =>
    have h0 := h 0
    rw [List.drop_zero] at h0
    simp only [stSearch, h0]
    exact ih (fun i => by simpa [List.drop_succ_cons] using h (i + 1))

/-- C4 (amended): `detect_message_type` implements a raw substring search, not
a per-line id check: it returns the three digit characters following the
*leftmost* occurrence of `ST*` immediately followed by three digits — even
when that occurrence sits inside a longer token (line id merely ending in
`ST`) or the digits are a prefix of a longer element — and returns
`"Unknown"` exactly when no position of the text matches. -/
theorem detect_type_first_match (edi_message : List Char) :
    ((∀ i, stMatchHead (edi_message.drop i) = none) →
      detect_message_type edi_message = "Unknown")
    ∧ ∀ i d, stMatchHead (edi_message.drop i) = some d →
        (∀ j, j < i → stMatchHead (edi_message.drop j) = none) →
        detect_message_type edi_message = String.mk d := by
  constructor
  · intro h
    unfold detect_message_type
    rw [stSearch_none edi_message h]
  · intro i d h hmin
    unfold detect_message_type
    rw [stSearch_first edi_message i d h hmin]

/-- C4 witness: the amended theorem applied at `"xST*123"` (match at
position 1) and at `"QQQ"` (no match). -/
theorem detect_type_first_match_witness :
    detect_message_type ("xST*123".toList) = String.mk ['1', '2', '3']
    ∧ detect_message_type ("QQQ".toList) = "Unknown" :=
  ⟨(detect_type_first_match ("xST*123".toList)).2 1 ['1', '2', '3'] rfl
      (by decide),
   (detect_type_first_match ("QQQ".toList)).1
      (fun i => by
        match i, (by decide : ("QQQ".toList).length = 3) with
        | 0, _ => rfl
        | 1, _ => rfl
        | 2, _ => rfl
        | (n + 3), h => rw [List.drop_eq_nil_of_le (by omega)]; rfl)⟩

/-- C8 counterexample: `_split_into_segments` strips the *whole message*
before splitting on newlines, so a leading blank line shifts `line_number`
away from the original 1-based line index: on `"\nISA*a"` the only segment
(from original line 2; original line 1 is the empty line) gets
`line_number = 1`. -/
theorem tokenize_line_number_cex :
    split_into_segments ("\nISA*a".toList)
      = [{ segment_id := "ISA", elements := ["a"], line_number := 1, position := 1 }]
    ∧ (("\nISA*a".toList).splitOn '\n').length = 2
    ∧ (("\nISA*a".toList).splitOn '\n')[0]? = some []
    ∧ (("\nISA*a".toList).splitOn '\n')[1]? = some ("ISA*a".toList) :=
  ⟨rfl, rfl, rfl, rfl⟩

theorem splitGo_positions : ∀ (lines : List (List Char)) (i : Nat) (acc : List Segment),
    (∀ k s, acc[k]? = some s → s.position = k + 1) →
    ∀ k s, (splitGo lines i acc)[k]? = some s → s.position = k + 1 := by
  intro lines
  induction lines with
  | nil => intro i acc hacc k s h; exact hacc k s h
  | cons l rest ih =>
    intro i acc hacc k s h
    rw [splitGo] at h
    split at h
    · exact ih (i + 1) acc hacc k s h
    · split at h
      · exact ih (i + 1) acc hacc k s h
      · exact ih (i + 1) acc hacc k s h
      · refine ih (i + 1) _ ?_ k s h
        intro k' s' h'
        rcases Nat.lt_trichotomy k' acc.length with hk | hk | hk
        · rw [List.getElem?_append_left hk] at h'
          exact hacc k' s' h'
        · subst hk
          rw [List.getElem?_concat_length] at h'
          cases h'
          rfl
        · rw [List.getElem?_append_right (Nat.le_of_lt hk)] at h'
          rw [List.getElem?_eq_none (by simp; omega)] at h'
          cases h'


theorem splitGo_provenance :
    ∀ (lines : List (List Char)) (i : Nat) (acc : List Segment),
    ∀ s ∈ splitGo lines i acc,
      s ∈ acc ∨ ∃ j l, lines[j]? = some l ∧ s.line_number = i + j + 1 ∧ lineShape s l := by
  intro lines
  induction lines with
  | nil => intro i acc s hs; exact Or.inl hs
  | cons l rest ih =>
    intro i acc s hs
    rw [splitGo] at hs
    have shift : (s ∈ acc ∨ ∃ j l', rest[j]? = some l' ∧ s.line_number = (i + 1) + j + 1
          ∧ lineShape s l') →
        s ∈ acc ∨ ∃ j l', (l :: rest)[j]? = some l' ∧ s.line_number = i + j + 1
          ∧ lineShape s l' := by
      rintro (h | ⟨j, l', hj, hln, hsh⟩)
      · exact Or.inl h
      · exact Or.inr ⟨j + 1, l', by simpa using hj, by omega, hsh⟩
    split at hs
    · exact shift (ih (i + 1) acc s hs)
    · split at hs
      · exact shift (ih (i + 1) acc s hs)
      · exact shift (ih (i + 1) acc s hs)
      · rename_i hd tl hne hmatch
        rcases ih (i + 1) _ s hs with hmem | hrest
        · rcases List.mem_append.mp hmem with hmem | hmem
          · exact Or.inl hmem
          · rcases List.mem_singleton.mp hmem with rfl
            refine Or.inr ⟨0, l, by simp, by simp, ?_⟩
            unfold lineShape
            rw [hmatch]
            simp only [List.map_map]
            rw [show String.data ∘ String.mk = id from rfl, List.map_id]
        · exact shift (Or.inr hrest)

/-- C8 (amended): `tokenize` is total by construction (a plain function), its
`position` values form the contiguous ascending run 1, 2, …, n in output
order (skipped lines contribute nothing), and `line_number` is the 1-based
index of the producing line within the lines of the *whitespace-stripped*
message (not of the raw original: leading blank lines shift it, as the
counterexample shows); the line found there, trimmed and split on `*`, is
exactly the segment's id followed by its elements. -/
theorem tokenize_positions_and_lines (edi_message : List Char) :
    (∀ k s, (split_into_segments edi_message)[k]? = some s → s.position = k + 1)
    ∧ ∀ s ∈ split_into_segments edi_message,
        ∃ l, ((pyStrip edi_message).splitOn '\n')[s.line_number - 1]? = some l
          ∧ lineShape s l := by
  constructor
  · exact splitGo_positions _ 0 [] (fun k s h => by cases k <;> cases h)
  · intro s hs
    rcases splitGo_provenance ((pyStrip edi_message).splitOn '\n') 0 [] s hs with h | h
    · cases h
    · rcases h with ⟨j, l, hj, hln, hsh⟩
      refine ⟨l, ?_, hsh⟩
      rw [hln]
      simpa using hj

/-- C8 witness: the amended theorem applied at `"ISA*a\nGS*b"`. -/
theorem tokenize_positions_and_lines_witness :
    ((split_into_segments ("ISA*a\nGS*b".toList))[1]?.map (·.position) = some 2)
    ∧ ∃ l, ((pyStrip ("ISA*a\nGS*b".toList)).splitOn '\n')[
        ({ segment_id := "GS", elements := ["b"], line_number := 2, position := 2 }
          : Segment).line_number - 1]? = some l
        ∧ lineShape { segment_id := "GS", elements := ["b"], line_number := 2, position := 2 } l := by
  constructor
  · have hsome : (split_into_segments ("ISA*a\nGS*b".toList))[1]?
        = some { segment_id := "GS", elements := ["b"], line_number := 2, position := 2 } := by
      decide
    have h := (tokenize_positions_and_lines ("ISA*a\nGS*b".toList)).1 1 _ hsome
    rw [hsome]
    simp [h]
  · exact (tokenize_positions_and_lines ("ISA*a\nGS*b".toList)).2
      { segment_id := "GS", elements := ["b"], line_number := 2, position := 2 }
      (by decide)

/-! ### C10: which segment determines `acknowledgment_code` in a 997. -/


theorem faStep_ack (fa : FunctionalAcknowledgmentData) (seg : Segment) :
    (faStep fa seg).acknowledgment_code
      = match ackSetVal seg with
        | some v => v
        | none => fa.acknowledgment_code := by
  unfold faStep ackSetVal
  by_cases h1 : seg.segment_id = "AK1"
  · simp only [h1, if_true, ite_true]
    rcases h0 : seg.elements[0]? with _ | e0 <;>
      rcases hh1 : seg.elements[1]? with _ | e1 <;>
        rcases h2 : seg.elements[2]? with _ | e2 <;> simp
  · by_cases h2 : seg.segment_id = "AK2"
    · have h5 : seg.segment_id ≠ "AK5" := by rw [h2]; decide
      simp only [h1, h2, h5, if_false, if_true, ite_false, ite_true]
      rcases h0 : seg.elements[0]? with _ | e0 <;>
        rcases hh1 : seg.elements[1]? with _ | e1 <;>
          rcases hh2 : seg.elements[2]? with _ | e2 <;> simp
    · by_cases h5 : seg.segment_id = "AK5"
      · simp only [h1, h2, h5, if_false, if_true, ite_false, ite_true]
        rcases h0 : seg.elements[0]? with _ | e0 <;> simp
      · simp [h1, h2, h5]


theorem faGo_ack : ∀ (segs : List Segment) (fa : FunctionalAcknowledgmentData),
    (faGo segs fa).acknowledgment_code
      = match lastAckVal segs with
        | some v => v
        | none => fa.acknowledgment_code := by
  intro segs
  induction segs with
  | nil => intro fa; rfl
  | cons s rest ih =>
    intro fa
    rw [faGo, ih (faStep fa s), faStep_ack]
    rcases hr : lastAckVal rest with _ | v
    · simp [lastAckVal, hr]
    · simp [lastAckVal, hr]

theorem lastAckVal_none_of_all_none : ∀ (segs : List Segment),
    (∀ s ∈ segs, ackSetVal s = none) → lastAckVal segs = none := by
  intro segs
  induction segs with
  | nil => intro _; rfl
  | cons s rest ih =>
    intro h
    have hr := ih (fun s' hs' => h s' (List.mem_cons_of_mem s hs'))
    simp [lastAckVal, hr, h s (List.mem_cons_self s rest)]

theorem lastAckVal_of_last_setter : ∀ (segs : List Segment) (j : Nat) (sj : Segment)
    (v : String), segs[j]? = some sj → ackSetVal sj = some v →
    (∀ k sk, j < k → segs[k]? = some sk → ackSetVal sk = none) →
    lastAckVal segs = some v := by
  intro segs
  induction segs with
  | nil => intro j sj v hj; rw [List.getElem?_nil] at hj; cases hj
  | cons s rest ih =>
    intro j sj v hj hset hafter
    match j with
    | 0 =>
      rw [List.getElem?_cons_zero] at hj
      cases hj
      have hnone : lastAckVal rest = none := by
        refine lastAckVal_none_of_all_none rest (fun s' hs' => ?_)
        rcases List.getElem_of_mem hs' with ⟨k, hk, hget⟩
        exact hafter (k + 1) s' (Nat.succ_pos k)
          (by rw [List.getElem?_cons_succ]; rw [List.getElem?_eq_getElem hk, hget])
      simp [lastAckVal, hnone, hset]
    | j + 1 =>
      rw [List.getElem?_cons_succ] at hj
      have hr := ih j sj v hj hset
        (fun k sk hk hsk => hafter (k + 1) sk (Nat.succ_lt_succ hk)
          (by rw [List.getElem?_cons_succ]; exact hsk))
      simp [lastAckVal, hr]


/-- C10 counterexample: the trailing `AK1` overwrites the `AK5` value. -/
theorem ak5_overwrite_cex :
    (parse_message akOverwriteRaw "997").data
      = some (ParsedData.fa { original_transaction_set_id := "850",
                              original_control_number := "0002",
                              acknowledgment_code := "E" })
    ∧ ("E" : String) ≠ "R" :=
  ⟨rfl, by decide⟩

/-- C10 (amended): in a 997 containing an `AK1` with a third element followed
later by an `AK5` with a first element, the extracted `acknowledgment_code`
equals the `AK5`'s first element *provided no ack-writing segment (an `AK1`
with a third element or another `AK5` with a first element) follows that
`AK5`*; in general the last ack-writing segment in encounter order wins, so a
trailing `AK1` overwrites the `AK5` value back. -/
theorem ack_code_last_setter (segs : List Segment) (j : Nat) (sj : Segment) (v : String)
    (hj : segs[j]? = some sj) (hAK5 : sj.segment_id = "AK5")
    (hv : sj.elements[0]? = some v)
    (_hpre : ∃ i si, i < j ∧ segs[i]? = some si ∧ si.segment_id = "AK1"
      ∧ 3 ≤ si.elements.length)
    (hafter : ∀ k sk, j < k → segs[k]? = some sk → ackSetVal sk = none) :
    (faGo segs {}).acknowledgment_code = v := by
  have hset : ackSetVal sj = some v := by
    unfold ackSetVal
    rw [hAK5]
    simp [hv]
  rw [faGo_ack, lastAckVal_of_last_setter segs j sj v hj hset hafter]


/-- C10 witness: the amended theorem applied where the `AK5` is last. -/
theorem ack_code_last_setter_witness :
    (faGo akWitnessSegs {}).acknowledgment_code = "R" :=
  ack_code_last_setter akWitnessSegs 1
    { segment_id := "AK5", elements := ["R"], line_number := 2, position := 2 } "R"
    (by decide) rfl rfl
    ⟨0, { segment_id := "AK1", elements := ["850", "0001", "A"],
          line_number := 1, position := 1 },
      by omega, by decide, rfl, by decide⟩
    (fun k sk hk hsk => by
      rw [List.getElem?_eq_none (by simp [akWitnessSegs]; omega)] at hsk
      cases hsk)


/-! ### C7: repeated party roles in a purchase order — last occurrence wins. -/


theorem exceptBind_ok (a : α) (f : α → Except ε β) :
    (Except.ok a >>= f : Except ε β) = f a := rfl

theorem exceptBind_err (e : ε) (f : α → Except ε β) :
    (Except.error e >>= f : Except ε β) = Except.error e := rfl

theorem poStep_slot_preserved (code : String) (po po' : PurchaseOrderData) (seg : Segment)
    (hrole : roleSeg code seg = false) (h : poStep po seg = Except.ok po') :
    poSlot code po' = poSlot code po := by
  unfold poStep at h
  split_ifs at h with hBEG hPO1 hN1
  · simp only at h
    rcases h1 : seg.elements[1]? with _ | e1 <;> simp only [h1] at h <;>
      rcases h2 : seg.elements[2]? with _ | e2 <;> simp only [h2] at h <;>
        cases h <;> unfold poSlot <;> split_ifs <;> rfl
  · simp only at h
    rcases hli : mkPO1LineItem seg.elements with e | li <;>
      simp only [hli, exceptBind_ok, exceptBind_err] at h
    · cases h
    · cases h
      unfold poSlot
      split_ifs <;> rfl
  · simp only at h
    unfold n1UpdatePO at h
    rcases h0 : seg.elements[0]? with _ | c <;> simp only [h0] at h <;>
      rcases h1 : seg.elements[1]? with _ | nm <;> (try simp only [h1] at h)
    · cases h; rfl
    · cases h; rfl
    · cases h; rfl
    · have hc : c ≠ code := by
        intro hcc
        subst hcc
        have hlen : 2 ≤ seg.elements.length := by
          by_contra hlt
          rw [List.getElem?_eq_none (by omega)] at h1
          cases h1
        rw [roleSeg, hN1] at hrole
        simp [h0, hlen] at hrole
      cases h
      unfold poSlot
      split_ifs <;> first | rfl | simp_all
  · cases h
    rfl

theorem poGo_slot_preserved (code : String) : ∀ (segs : List Segment)
    (acc po : PurchaseOrderData),
    (∀ s ∈ segs, roleSeg code s = false) → poGo segs acc = Except.ok po →
    poSlot code po = poSlot code acc := by
  intro segs
  induction segs with
  | nil => intro acc po _ h; cases h; rfl
  | cons s rest ih =>
    intro acc po hall h
    rw [poGo] at h
    rcases hstep : poStep acc s with e | acc' <;> rw [hstep] at h
    · cases h
    · rw [ih acc' po (fun s' hs' => hall s' (List.mem_cons_of_mem s hs')) h,
        poStep_slot_preserved code acc acc' s (hall s (List.mem_cons_self s rest)) hstep]

theorem poStep_slot_set (code : String)
    (hcode : code = "BY" ∨ code = "SE" ∨ code = "ST" ∨ code = "BT")
    (po : PurchaseOrderData) (seg : Segment) (hrole : roleSeg code seg = true) :
    poStep po seg = Except.ok (n1UpdatePO po seg.elements)
    ∧ poSlot code (n1UpdatePO po seg.elements)
      = some { entity_identifier_code := code, name := seg.elements[1]?.getD "" } := by
  have hN1 : seg.segment_id = "N1" := by
    rw [roleSeg] at hrole
    exact eq_of_beq (Bool.and_elim_left (Bool.and_elim_left hrole))
  have h0 : seg.elements[0]? = some code := by
    rw [roleSeg] at hrole
    have := Bool.and_elim_right (Bool.and_elim_left hrole)
    exact eq_of_beq this
  have hlen : 2 ≤ seg.elements.length := by
    rw [roleSeg] at hrole
    exact of_decide_eq_true (Bool.and_elim_right hrole)
  obtain ⟨nm, h1⟩ : ∃ nm, seg.elements[1]? = some nm := by
    rcases hx : seg.elements[1]? with _ | nm
    · have := List.getElem?_eq_getElem (show 1 < seg.elements.length by omega)
      rw [hx] at this
      cases this
    · exact ⟨nm, rfl⟩
  constructor
  · unfold poStep
    rw [hN1]
    rfl
  · unfold n1UpdatePO
    rw [h0, h1]
    rcases hcode with h | h | h | h <;> subst h <;> simp [poSlot, h1]

theorem poGo_slot_last (code : String)
    (hcode : code = "BY" ∨ code = "SE" ∨ code = "ST" ∨ code = "BT") :
    ∀ (segs : List Segment) (acc po : PurchaseOrderData) (j : Nat) (sj : Segment),
    poGo segs acc = Except.ok po → segs[j]? = some sj → roleSeg code sj = true →
    (∀ k sk, j < k → segs[k]? = some sk → roleSeg code sk = false) →
    poSlot code po = some { entity_identifier_code := code,
                            name := sj.elements[1]?.getD "" } := by
  intro segs
  induction segs with
  | nil => intro acc po j sj _ hj; rw [List.getElem?_nil] at hj; cases hj
  | cons s rest ih =>
    intro acc po j sj hok hj hrole hafter
    rw [poGo] at hok
    rcases hstep : poStep acc s with e | acc' <;> rw [hstep] at hok
    · cases hok
    · match j with
      | 0 =>
        rw [List.getElem?_cons_zero] at hj
        cases hj
        have hset := poStep_slot_set code hcode acc s hrole
        have hstep' : acc' = n1UpdatePO acc s.elements := by
          rw [hset.1] at hstep
          cases hstep
          rfl
        have hallrest : ∀ s' ∈ rest, roleSeg code s' = false := by
          intro s' hs'
          rcases List.getElem_of_mem hs' with ⟨k, hk, hget⟩
          exact hafter (k + 1) s' (Nat.succ_pos k)
            (by rw [List.getElem?_cons_succ, List.getElem?_eq_getElem hk, hget])
        rw [poGo_slot_preserved code rest acc' po hallrest hok, hstep']
        exact hset.2
      | j + 1 =>
        rw [List.getElem?_cons_succ] at hj
        exact ih acc' po j sj hok hj hrole
          (fun k sk hk hsk => hafter (k + 1) sk (Nat.succ_lt_succ hk)
            (by rw [List.getElem?_cons_succ]; exact hsk))

/-- C7: when a purchase-order segment list contains two or more party (`N1`)
segments carrying the same recognized entity-role code (with a name present),
and extraction succeeds, the typed record's slot for that role holds the
entity-role code and name of the *last* such segment in encounter order — the
earlier occurrences are overwritten, not merged and not rejected. -/
theorem last_party_wins (code : String)
    (hcode : code = "BY" ∨ code = "SE" ∨ code = "ST" ∨ code = "BT")
    (segs : List Segment) (po : PurchaseOrderData)
    (hok : poGo segs {} = Except.ok po)
    (j : Nat) (sj : Segment) (hj : segs[j]? = some sj) (hrole : roleSeg code sj = true)
    (hafter : ∀ k sk, j < k → segs[k]? = some sk → roleSeg code sk = false)
    (_hmulti : ∃ i si, i < j ∧ segs[i]? = some si ∧ roleSeg code si = true) :
    poSlot code po = some { entity_identifier_code := code,
                            name := sj.elements[1]?.getD "" } :=
  poGo_slot_last code hcode segs {} po j sj hok hj hrole hafter


/-- C7 witness: two buyer segments; the extracted buyer is the later one. -/
theorem last_party_wins_witness :
    poSlot "BY" { buyer := some { entity_identifier_code := "BY", name := "Bob" } }
      = some { entity_identifier_code := "BY", name := "Bob" } :=
  last_party_wins "BY" (Or.inl rfl) dupBuyerSegs
    { buyer := some { entity_identifier_code := "BY", name := "Bob" } }
    (by decide) 1
    { segment_id := "N1", elements := ["BY", "Bob"], line_number := 2, position := 2 }
    (by decide) (by decide)
    (fun k sk hk hsk => by
      rw [List.getElem?_eq_none (by simp [dupBuyerSegs]; omega)] at hsk
      cases hsk)
    ⟨0, { segment_id := "N1", elements := ["BY", "Alice"], line_number := 1, position := 1 },
      by omega, by decide, by decide⟩

/-! ### C6: numeric fields — empty yields zero, non-numeric aborts. -/


theorem mkPO1_empty_qty (elements : List String) (h : elements[1]? = some "") :
    ∀ li, mkPO1LineItem elements = Except.ok li → li.quantity_ordered.value = 0 := by
  intro li hli
  unfold mkPO1LineItem at hli
  rcases h0 : elements[0]? with _ | e0 <;>
    rcases h2 : elements[2]? with _ | e2 <;>
      rcases h4 : elements[4]? with _ | e4 <;>
        rcases h5 : elements[5]? with _ | e5 <;>
          rcases h3 : elements[3]? with _ | e3 <;>
            simp only [h, h0, h2, h3, h4, h5, eq_self_iff_true, if_true,
              exceptBind_ok, exceptBind_err, pyFloatE] at hli <;>
            first
            | (cases hli; rfl)
            | (by_cases he3 : e3 = ""
               · simp only [he3, eq_self_iff_true, if_true, exceptBind_ok] at hli
                 cases hli
                 rfl
               · simp only [he3, if_false, ite_false] at hli
                 rcases hq : pyFloat e3 with _ | q <;>
                   simp only [hq, exceptBind_ok, exceptBind_err] at hli
                 · cases hli
                 · cases hli
                   rfl)

theorem mkPO1_empty_price (elements : List String) (h : elements[3]? = some "") :
    ∀ li, mkPO1LineItem elements = Except.ok li → li.unit_price.value = 0 := by
  intro li hli
  unfold mkPO1LineItem at hli
  rcases h0 : elements[0]? with _ | e0 <;>
    rcases h2 : elements[2]? with _ | e2 <;>
      rcases h4 : elements[4]? with _ | e4 <;>
        rcases h5 : elements[5]? with _ | e5 <;>
          rcases h1 : elements[1]? with _ | e1 <;>
            simp only [h, h0, h1, h2, h4, h5, eq_self_iff_true, if_true,
              exceptBind_ok, exceptBind_err, pyFloatE] at hli <;>
            first
            | (cases hli; rfl)
            | (by_cases he1 : e1 = ""
               · simp only [he1, eq_self_iff_true, if_true, exceptBind_ok] at hli
                 cases hli
                 rfl
               · simp only [he1, if_false, ite_false] at hli
                 rcases hq : pyFloat e1 with _ | q <;>
                   simp only [hq, exceptBind_ok, exceptBind_err] at hli
                 · cases hli
                 · cases hli
                   rfl)

theorem mkPO1_bad_qty (elements : List String) (e : String) (h : elements[1]? = some e)
    (hne : e ≠ "") (hf : pyFloat e = none) :
    exceptIsOk (mkPO1LineItem elements) = false := by
  unfold mkPO1LineItem
  rcases h0 : elements[0]? with _ | e0 <;>
    simp only [h, h0, hne, if_false, ite_false, pyFloatE, hf, exceptBind_err] <;> rfl

theorem mkPO1_bad_price (elements : List String) (e : String) (h : elements[3]? = some e)
    (hne : e ≠ "") (hf : pyFloat e = none) :
    exceptIsOk (mkPO1LineItem elements) = false := by
  unfold mkPO1LineItem
  rcases h0 : elements[0]? with _ | e0 <;>
    rcases h2 : elements[2]? with _ | e2 <;>
      rcases h1 : elements[1]? with _ | e1 <;>
        simp only [h, h0, h1, h2, hne, if_false, ite_false,
          exceptBind_ok, exceptBind_err, pyFloatE, hf] <;>
        first
        | rfl
        | (by_cases he1 : e1 = ""
           · simp only [he1, eq_self_iff_true, if_true]
             rfl
           · simp only [he1, if_false, ite_false]
             rcases hq : pyFloat e1 with _ | q <;>
               simp only [hq, exceptBind_ok, exceptBind_err] <;> rfl)

theorem mkIT1_empty_qty (elements : List String) (h : elements[1]? = some "") :
    ∀ li, mkIT1LineItem elements = Except.ok li → li.quantity_invoiced.value = 0 := by
  intro li hli
  unfold mkIT1LineItem at hli
  rcases h0 : elements[0]? with _ | e0 <;>
    rcases h2 : elements[2]? with _ | e2 <;>
      rcases h4 : elements[4]? with _ | e4 <;>
        rcases h5 : elements[5]? with _ | e5 <;>
          rcases h3 : elements[3]? with _ | e3 <;>
            simp only [h, h0, h2, h3, h4, h5, eq_self_iff_true, if_true,
              exceptBind_ok, exceptBind_err, pyFloatE] at hli <;>
            first
            | (cases hli; rfl)
            | (by_cases he3 : e3 = ""
               · simp only [he3, eq_self_iff_true, if_true, exceptBind_ok] at hli
                 cases hli
                 rfl
               · simp only [he3, if_false, ite_false] at hli
                 rcases hq : pyFloat e3 with _ | q <;>
                   simp only [hq, exceptBind_ok, exceptBind_err] at hli
                 · cases hli
                 · cases hli
                   rfl)

theorem mkIT1_empty_price (elements : List String) (h : elements[3]? = some "") :
    ∀ li, mkIT1LineItem elements = Except.ok li → li.unit_price.value = 0 := by
  intro li hli
  unfold mkIT1LineItem at hli
  rcases h0 : elements[0]? with _ | e0 <;>
    rcases h2 : elements[2]? with _ | e2 <;>
      rcases h4 : elements[4]? with _ | e4 <;>
        rcases h5 : elements[5]? with _ | e5 <;>
          rcases h1 : elements[1]? with _ | e1 <;>
            simp only [h, h0, h1, h2, h4, h5, eq_self_iff_true, if_true,
              exceptBind_ok, exceptBind_err, pyFloatE] at hli <;>
            first
            | (cases hli; rfl)
            | (by_cases he1 : e1 = ""
               · simp only [he1, eq_self_iff_true, if_true, exceptBind_ok] at hli
                 cases hli
                 rfl
               · simp only [he1, if_false, ite_false] at hli
                 rcases hq : pyFloat e1 with _ | q <;>
                   simp only [hq, exceptBind_ok, exceptBind_err] at hli
                 · cases hli
                 · cases hli
                   rfl)

theorem mkIT1_bad_qty (elements : List String) (e : String) (h : elements[1]? = some e)
    (hne : e ≠ "") (hf : pyFloat e = none) :
    exceptIsOk (mkIT1LineItem elements) = false := by
  unfold mkIT1LineItem
  rcases h0 : elements[0]? with _ | e0 <;>
    simp only [h, h0, hne, if_false, ite_false, pyFloatE, hf, exceptBind_err] <;> rfl

theorem mkIT1_bad_price (elements : List String) (e : String) (h : elements[3]? = some e)
    (hne : e ≠ "") (hf : pyFloat e = none) :
    exceptIsOk (mkIT1LineItem elements) = false := by
  unfold mkIT1LineItem
  rcases h0 : elements[0]? with _ | e0 <;>
    rcases h2 : elements[2]? with _ | e2 <;>
      rcases h1 : elements[1]? with _ | e1 <;>
        simp only [h, h0, h1, h2, hne, if_false, ite_false,
          exceptBind_ok, exceptBind_err, pyFloatE, hf] <;>
        first
        | rfl
        | (by_cases he1 : e1 = ""
           · simp only [he1, eq_self_iff_true, if_true]
             rfl
           · simp only [he1, if_false, ite_false]
             rcases hq : pyFloat e1 with _ | q <;>
               simp only [hq, exceptBind_ok, exceptBind_err] <;> rfl)

theorem poGo_error_of_badPO1 : ∀ (segs : List Segment) (acc : PurchaseOrderData),
    (∃ s ∈ segs, s.segment_id = "PO1" ∧ exceptIsOk (mkPO1LineItem s.elements) = false) →
    exceptIsOk (poGo segs acc) = false := by
  intro segs
  induction segs with
  | nil =>
    rintro acc ⟨s, hs, _⟩
    simp at hs
  | cons t rest ih =>
    rintro acc ⟨s, hs, hid, hbad⟩
    rw [poGo]
    rcases hstep : poStep acc t with e | acc'
    · rfl
    · rcases List.mem_cons.mp hs with rfl | hmem
      · exfalso
        rcases hmk : mkPO1LineItem s.elements with e' | li
        · have hb : ¬ (("PO1" : String) = "BEG") := by decide
          unfold poStep at hstep
          rw [hid] at hstep
          simp only [hb, if_false, ite_false, eq_self_iff_true, if_true, ite_true,
            hmk, exceptBind_err] at hstep
          cases hstep
        · rw [hmk] at hbad
          cases hbad
      · exact ih acc' ⟨s, hmem, hid, hbad⟩

theorem invGo_error_of_badIT1 : ∀ (segs : List Segment) (acc : InvoiceData),
    (∃ s ∈ segs, s.segment_id = "IT1" ∧ exceptIsOk (mkIT1LineItem s.elements) = false) →
    exceptIsOk (invGo segs acc) = false := by
  intro segs
  induction segs with
  | nil =>
    rintro acc ⟨s, hs, _⟩
    simp at hs
  | cons t rest ih =>
    rintro acc ⟨s, hs, hid, hbad⟩
    rw [invGo]
    rcases hstep : invStep acc t with e | acc'
    · rfl
    · rcases List.mem_cons.mp hs with rfl | hmem
      · exfalso
        rcases hmk : mkIT1LineItem s.elements with e' | li
        · have hb : ¬ (("IT1" : String) = "BIG") := by decide
          unfold invStep at hstep
          rw [hid] at hstep
          simp only [hb, if_false, ite_false, eq_self_iff_true, if_true, ite_true,
            hmk, exceptBind_err] at hstep
          cases hstep
        · rw [hmk] at hbad
          cases hbad
      · exact ih acc' ⟨s, hmem, hid, hbad⟩

theorem parse_message_error_850 (raw : List Char)
    (hbad : exceptIsOk (poGo (split_into_segments raw) {}) = false) :
    (parse_message raw "850").success = false ∧ (parse_message raw "850").data = none := by
  unfold parse_message
  simp only [eq_self_iff_true, if_true, ite_true]
  rcases hgo : poGo (split_into_segments raw) {} with e | d
  · exact ⟨rfl, rfl⟩
  · rw [hgo] at hbad
    cases hbad

theorem parse_message_error_810 (raw : List Char)
    (hbad : exceptIsOk (invGo (split_into_segments raw) {}) = false) :
    (parse_message raw "810").success = false ∧ (parse_message raw "810").data = none := by
  have hb : ¬ (("810" : String) = "850") := by decide
  unfold parse_message
  simp only [hb, if_false, ite_false, eq_self_iff_true, if_true, ite_true]
  rcases hgo : invGo (split_into_segments raw) {} with e | d
  · exact ⟨rfl, rfl⟩
  · rw [hgo] at hbad
    cases hbad

theorem processing_parsing_error (request : ProcessEdiMessageRequest)
    (hsupp : is_message_type_supported request.message_type = true)
    (hfail : (parse_message request.edi_message request.message_type).success = false)
    (hfmt : request.options.validate_format = true →
      (validate_format request.edi_message request.message_type).has_errors = false) :
    (ProcessEdiMessage request).status = ProcessingStatus.parsing_error
    ∧ (ProcessEdiMessage request).purchase_order = none
    ∧ (ProcessEdiMessage request).invoice = none
    ∧ (ProcessEdiMessage request).advance_ship_notice = none
    ∧ (ProcessEdiMessage request).functional_acknowledgment = none := by
  unfold ProcessEdiMessage
  rw [hsupp]
  by_cases hv : request.options.validate_format = true
  · have hne := hfmt hv
    simp only [hv, if_true, ite_true, hne, Bool.and_false, Bool.not_true, Bool.not_false,
      if_false, ite_false, hfail]
    exact ⟨rfl, rfl, rfl, rfl, rfl⟩
  · simp only [Bool.not_eq_true] at hv
    simp only [hv, if_false, ite_false, Bool.not_true, Bool.not_false, if_true, ite_true,
      hfail]
    exact ⟨rfl, rfl, rfl, rfl, rfl⟩

/-- C6: a numeric element (quantity position 2 or unit-price position 4 of a
`PO1`/`IT1` line item) that is empty yields the value `0.0` in the typed
record; a non-empty element that `float` rejects aborts extraction of the
whole message (the builder and the fold return an error, not a value), and
`ProcessEdiMessage` then returns terminal status `PARSING_ERROR` with no typed
record of any kind — provided the earlier gates pass (the type is supported
and format validation, if enabled, found no Error). -/
theorem numeric_field_handling (elements : List String)
    (request : ProcessEdiMessageRequest) :
    ((elements[1]? = some "" →
        (∀ li, mkPO1LineItem elements = Except.ok li → li.quantity_ordered.value = 0)
        ∧ (∀ li, mkIT1LineItem elements = Except.ok li → li.quantity_invoiced.value = 0))
     ∧ (elements[3]? = some "" →
        (∀ li, mkPO1LineItem elements = Except.ok li → li.unit_price.value = 0)
        ∧ (∀ li, mkIT1LineItem elements = Except.ok li → li.unit_price.value = 0)))
    ∧ (∀ e, e ≠ "" → pyFloat e = none →
        (elements[1]? = some e ∨ elements[3]? = some e) →
        exceptIsOk (mkPO1LineItem elements) = false
        ∧ exceptIsOk (mkIT1LineItem elements) = false)
    ∧ (((request.message_type = "850"
          ∧ ∃ s ∈ split_into_segments request.edi_message,
              s.segment_id = "PO1" ∧ exceptIsOk (mkPO1LineItem s.elements) = false)
        ∨ (request.message_type = "810"
          ∧ ∃ s ∈ split_into_segments request.edi_message,
              s.segment_id = "IT1" ∧ exceptIsOk (mkIT1LineItem s.elements) = false)) →
        (request.options.validate_format = true →
          (validate_format request.edi_message request.message_type).has_errors = false) →
        (ProcessEdiMessage request).status = ProcessingStatus.parsing_error
        ∧ (ProcessEdiMessage request).purchase_order = none
        ∧ (ProcessEdiMessage request).invoice = none
        ∧ (ProcessEdiMessage request).advance_ship_notice = none
        ∧ (ProcessEdiMessage request).functional_acknowledgment = none) := by
  refine ⟨⟨?_, ?_⟩, ?_, ?_⟩
  · intro h
    exact ⟨mkPO1_empty_qty elements h, mkIT1_empty_qty elements h⟩
  · intro h
    exact ⟨mkPO1_empty_price elements h, mkIT1_empty_price elements h⟩
  · rintro e hne hf (h | h)
    · exact ⟨mkPO1_bad_qty elements e h hne hf, mkIT1_bad_qty elements e h hne hf⟩
    · exact ⟨mkPO1_bad_price elements e h hne hf, mkIT1_bad_price elements e h hne hf⟩
  · rintro (⟨hmt, hbad⟩ | ⟨hmt, hbad⟩) hfmt
    · have hfail := (parse_message_error_850 request.edi_message
        (poGo_error_of_badPO1 _ {} hbad)).1
      rw [← hmt] at hfail
      exact processing_parsing_error request (by rw [hmt]; decide) hfail hfmt
    · have hfail := (parse_message_error_810 request.edi_message
        (invGo_error_of_badIT1 _ {} hbad)).1
      rw [← hmt] at hfail
      exact processing_parsing_error request (by rw [hmt]; decide) hfail hfmt


/-- C6 witness: the theorem applied at concrete inputs: empty quantity and
empty price yield `0`; `"abc"` in the quantity position makes the builder
fail and drives `ProcessEdiMessage` to `PARSING_ERROR` with no record. -/
theorem numeric_field_handling_witness :
    (∀ li, mkPO1LineItem ["1", "", "EA", ""] = Except.ok li →
      li.quantity_ordered.value = 0 ∧ li.unit_price.value = 0)
    ∧ exceptIsOk (mkPO1LineItem ["1", "abc"]) = false
    ∧ (ProcessEdiMessage badQtyRequest).status = ProcessingStatus.parsing_error
    ∧ (ProcessEdiMessage badQtyRequest).purchase_order = none := by
  have h1 := numeric_field_handling ["1", "", "EA", ""] badQtyRequest
  have h2 := numeric_field_handling ["1", "abc"] badQtyRequest
  refine ⟨fun li hli => ⟨(h1.1.1 rfl).1 li hli, (h1.1.2 rfl).1 li hli⟩, ?_, ?_, ?_⟩
  · exact ((h2.2.1 "abc" (by decide) rfl) (Or.inl rfl)).1
  · exact (h2.2.2 (Or.inl ⟨rfl,
      { segment_id := "PO1", elements := ["1", "abc"], line_number := 1, position := 1 },
      by decide, rfl,
      ((h2.2.1 "abc" (by decide) rfl) (Or.inl rfl)).1⟩) (fun h => nomatch h)).1
  · exact (h2.2.2 (Or.inl ⟨rfl,
      { segment_id := "PO1", elements := ["1", "abc"], line_number := 1, position := 1 },
      by decide, rfl,
      ((h2.2.1 "abc" (by decide) rfl) (Or.inl rfl)).1⟩) (fun h => nomatch h)).2.1

/-! ### C5: version detection on a header line carrying the marker in its
trailing field. -/


theorem dropWhile_append_star (f t : List Char) (hf : '*' ∉ f) :
    (f ++ '*' :: t).dropWhile (fun c => c ≠ '*') = '*' :: t := by
  induction f with
  | nil => rw [List.nil_append, List.dropWhile_cons, if_neg (by simp)]
  | cons c cs ih =>
    have hc : c ≠ '*' := fun h => hf (by rw [h]; exact List.mem_cons_self _ _)
    have hf' : '*' ∉ cs := fun h => hf (List.mem_cons_of_mem c h)
    rw [List.cons_append, List.dropWhile_cons, if_pos (by simp [hc])]
    exact ih hf'

theorem starField_join (f t : List Char) (hf : '*' ∉ f) :
    starField (f ++ '*' :: t) = some t := by
  unfold starField
  rw [dropWhile_append_star f t hf]
  rfl

theorem starFields_join : ∀ (n : Nat) (fields : List (List Char)) (t : List Char),
    n ≤ fields.length → (∀ f ∈ fields, '*' ∉ f) →
    starFields n (starJoin fields ++ t) = some (starJoin (fields.drop n) ++ t) := by
  intro n
  induction n with
  | zero => intro fields t _ _; rfl
  | succ n ih =>
    intro fields t hlen hstar
    match fields with
    | [] => exact absurd hlen (by simp)
    | f :: rest =>
      rw [starFields]
      have h1 : starField (starJoin (f :: rest) ++ t) = some (starJoin rest ++ t) := by
        rw [show starJoin (f :: rest) ++ t = f ++ '*' :: (starJoin rest ++ t) from by
          simp [starJoin]]
        exact starField_join _ _ (hstar f (List.mem_cons_self f rest))
      rw [h1]
      exact ih rest t (by simpa using hlen)
        (fun f' hf' => hstar f' (List.mem_cons_of_mem f hf'))

theorem versionMatch_header (n : Nat) (m : List Char) (pre : List (List Char))
    (marker : List Char) (hn : n ≤ pre.length) (hstar : ∀ f ∈ pre, '*' ∉ f) :
    versionMatchHead n m (isaHeaderLine pre marker)
      = m.isPrefixOf (starJoin (pre.drop n) ++ marker) := by
  show (match starFields n (starJoin pre ++ marker) with
        | some r => m.isPrefixOf r
        | none => false) = m.isPrefixOf (starJoin (pre.drop n) ++ marker)
  rw [starFields_join n pre marker hn hstar]

theorem versionMatchHead_tag (n : Nat) (m s : List Char)
    (h : isaTagAt s = false) : versionMatchHead n m s = false := by
  cases hv : versionMatchHead n m s
  · rfl
  · exfalso
    unfold versionMatchHead at hv
    split at hv
    · simp_all [isaTagAt]
    · cases hv

theorem versionSearch_eq_true (n : Nat) (m : List Char) : ∀ (s : List Char),
    versionSearch n m s = true ↔ ∃ i, versionMatchHead n m (s.drop i) = true := by
  intro s
  induction s with
  | nil =>
    constructor
    · intro h
      cases h
    · rintro ⟨i, hi⟩
      rw [List.drop_nil] at hi
      rw [show versionMatchHead n m [] = false from rfl] at hi
      cases hi
  | cons c rest ih =>
    rw [versionSearch, Bool.or_eq_true, ih]
    constructor
    · rintro (h | ⟨i, hi⟩)
      · exact ⟨0, h⟩
      · exact ⟨i + 1, by simpa using hi⟩
    · rintro ⟨i, hi⟩
      match i with
      | 0 => exact Or.inl (by simpa using hi)
      | i + 1 => exact Or.inr ⟨i, by simpa using hi⟩

/-- C5: on a header line of the shape the version patterns read — the `ISA`
tag, 17 star-terminated fields, then the trailing field — `detect_edi_version`
returns exactly `"005010"` when the trailing field is the `005010` marker, and
`"Unknown"` when the trailing field carries an unrecognized marker.  (The
`004010` pattern, tried first, reads one field earlier — 16 intermediate
fields — and is rejected by `h004`; `hnoIsa` pins the only `ISA*` occurrence
to the start of the line, as in any well-formed header.) -/
theorem detect_version_trailing_field (pre : List (List Char)) (marker : List Char)
    (hlen : pre.length = 17)
    (hstar : ∀ f ∈ pre, '*' ∉ f)
    (hnoIsa : ∀ i, i < (isaHeaderLine pre marker).length → 0 < i →
      isaTagAt ((isaHeaderLine pre marker).drop i) = false)
    (h004 : ("004010".toList).isPrefixOf (starJoin (pre.drop 16) ++ marker) = false) :
    (marker = "005010".toList →
      detect_edi_version (isaHeaderLine pre marker) = "005010")
    ∧ (("005010".toList).isPrefixOf marker = false →
      detect_edi_version (isaHeaderLine pre marker) = "Unknown") := by
  have hmatch_pos : ∀ (n : Nat) (m : List Char) (i : Nat), 0 < i →
      versionMatchHead n m ((isaHeaderLine pre marker).drop i) = false := by
    intro n m i hi
    by_cases hlt : i < (isaHeaderLine pre marker).length
    · exact versionMatchHead_tag n m _ (hnoIsa i hlt hi)
    · rw [List.drop_eq_nil_of_le (by omega)]
      rfl
  have h004search : versionSearch 16 ("004010".toList) (isaHeaderLine pre marker)
      = false := by
    cases hs : versionSearch 16 ("004010".toList) (isaHeaderLine pre marker)
    · rfl
    · exfalso
      rcases (versionSearch_eq_true _ _ _).mp hs with ⟨i, hi⟩
      match i with
      | 0 =>
        rw [List.drop_zero,
          versionMatch_header 16 ("004010".toList) pre marker (by omega) hstar,
          h004] at hi
        cases hi
      | i + 1 =>
        rw [hmatch_pos 16 ("004010".toList) (i + 1) (Nat.succ_pos i)] at hi
        cases hi
  have hdrop17 : pre.drop 17 = [] := by
    rw [← hlen]
    exact List.drop_length pre
  constructor
  · intro hm
    have h005search : versionSearch 17 ("005010".toList) (isaHeaderLine pre marker)
        = true := by
      rw [versionSearch_eq_true]
      refine ⟨0, ?_⟩
      rw [List.drop_zero,
        versionMatch_header 17 ("005010".toList) pre marker (by omega) hstar,
        hdrop17, hm]
      decide
    unfold detect_edi_version
    rw [h004search, h005search]
    rfl
  · intro hm
    have h005search : versionSearch 17 ("005010".toList) (isaHeaderLine pre marker)
        = false := by
      cases hs : versionSearch 17 ("005010".toList) (isaHeaderLine pre marker)
      · rfl
      · exfalso
        rcases (versionSearch_eq_true _ _ _).mp hs with ⟨i, hi⟩
        match i with
        | 0 =>
          rw [List.drop_zero,
            versionMatch_header 17 ("005010".toList) pre marker (by omega) hstar,
            hdrop17] at hi
          rw [show starJoin [] ++ marker = marker from rfl, hm] at hi
          cases hi
        | i + 1 =>
          rw [hmatch_pos 17 ("005010".toList) (i + 1) (Nat.succ_pos i)] at hi
          cases hi
    unfold detect_edi_version
    rw [h004search, h005search]
    rfl


/-- C5 witness: the theorem applied with trailing field `005010` (detected)
and with trailing field `XYZ123` (unknown). -/
theorem detect_version_trailing_field_witness :
    detect_edi_version (isaHeaderLine c5Pre ("005010".toList)) = "005010"
    ∧ detect_edi_version (isaHeaderLine c5Pre ("XYZ123".toList)) = "Unknown" :=
  ⟨(detect_version_trailing_field c5Pre ("005010".toList) (by decide) (by decide)
      (by decide) (by decide)).1 rfl,
   (detect_version_trailing_field c5Pre ("XYZ123".toList) (by decide) (by decide)
      (by decide) (by decide)).2 (by decide)⟩

end EDI
